import Mathlib

/-!  Verification model of the kalakriti marketplace application: the
relational data model (kalakriti/models.py together with the EmailOTP model
declared in migration 0004_emailotp.py), Django on_delete semantics of its
foreign keys, and the seed_data management command
(kalakriti/management/commands/seed_data.py).

Conventions of the embedding:
* DecimalField values are integers in hundredths (so Decimal("2499.00") is
  249900); FloatField ratings are integers in hundredths as well.
* auto_now / auto_now_add timestamp columns and UUID primary keys are not
  modelled; rows carry Nat ids handed out by a per-state counter.
* CPython's global `random` generator is modelled abstractly: a state is an
  arbitrary value stream plus a position; `random.seed(s)` installs a stream
  that is a fixed function of the seed string alone, and every draw consumes
  one stream value.  The interpreter's startup state (seeded from OS entropy)
  is an arbitrary `RandState` input of a run.
* The media directory is modelled as the list of image files present.
-/

namespace Kala

/-- DecimalField amounts in hundredths. -/
abbrev Money := Int

/-- Abstract model of CPython's global `random` generator state. -/
structure RandState where
  stream : Nat → Nat
  pos : Nat

/-- Deterministic hash of a seed string (stand-in for the way `random.seed`
digests a `str` argument). -/
def strSeed (s : String) : Nat :=
  s.data.foldl (fun a c => a * 31 + c.toNat + 1) 7

/-- `random.seed(s)`: the resulting state is a fixed function of `s` only. -/
def seedRand (s : String) : RandState :=
  { stream := fun n => (strSeed s * (n + 3) + n) % 4294967296, pos := 0 }

/-- A constant test stream standing for one possible startup state. -/
def cstream (c : Nat) : RandState :=
  { stream := fun _ => c, pos := 0 }

/-- Consume one value of the stream. -/
def draw (r : RandState) : Nat × RandState :=
  (r.stream r.pos, { r with pos := r.pos + 1 })

/-- `random.randint(lo, hi)` (both bounds inclusive). -/
def randint (lo hi : Nat) (r : RandState) : Nat × RandState :=
  let d := draw r
  (lo + d.1 % (hi - lo + 1), d.2)

/-- `round(random.uniform(lo, hi), 2)` with both bounds scaled by 100; the
result is kept as an integer number of hundredths. -/
def uniform2 (lo hi : Nat) (r : RandState) : Nat × RandState :=
  randint lo hi r

/-- `random.choice(l)` for a nonempty list (`d` is a dummy default). -/
def choiceD (l : List α) (d : α) (r : RandState) : α × RandState :=
  let k := draw r
  (l.getD (k.1 % l.length) d, k.2)

/-- django.contrib.auth.models.User (the columns the repository reads or
writes); `password = none` models an unusable password. -/
structure UserRow where
  id : Nat
  username : String
  email : String
  password : Option String
  isStaff : Bool
  isSuperuser : Bool
deriving DecidableEq, Repr

/-- kalakriti.models.UserProfile. -/
structure ProfileRow where
  id : Nat
  user : Nat
  userType : String
  phone : String
  address : String
  city : String
  state : String
  pincode : String
  profileImage : String
  termsVersion : String
  sellerVerified : Bool
deriving DecidableEq, Repr

/-- kalakriti.models.Seller. -/
structure SellerRow where
  id : Nat
  user : Nat
  shopName : String
  shopDescription : String
  shopLogo : String
  phone : String
  state : String
  bankAccount : String
  bankName : String
  ifscCode : String
  totalProducts : Int
  totalSales : Money
  rating : Nat
  isVerified : Bool
  isActive : Bool
deriving DecidableEq, Repr

/-- kalakriti.models.SellerProduct. -/
structure SellerProductRow where
  id : Nat
  seller : Nat
  product : Nat
  sellerSku : String
  sellerPrice : Money
  sellerStock : Int
deriving DecidableEq, Repr

/-- kalakriti.models.ProductActivity (`details` JSON is the fixed two-key
payload the code writes, kept as two string columns). -/
structure ActivityRow where
  id : Nat
  seller : Nat
  product : Nat
  activityType : String
  user : Option Nat
  detailsSource : String
  detailsRef : String
deriving DecidableEq, Repr

/-- kalakriti.models.Category. -/
structure CategoryRow where
  id : Nat
  name : String
  slug : String
  description : String
  image : String
deriving DecidableEq, Repr

/-- kalakriti.models.Region. -/
structure RegionRow where
  id : Nat
  name : String
  slug : String
  description : String
  image : String
  culturalHeritage : String
deriving DecidableEq, Repr

/-- kalakriti.models.Artisan (`social_media_links` JSON is the single
instagram entry the seeder writes). -/
structure ArtisanRow where
  id : Nat
  name : String
  slug : String
  bio : String
  image : String
  region : Nat
  specialty : String
  yearsOfExperience : Nat
  email : String
  phone : String
  website : String
  instagram : String
  featured : Bool
deriving DecidableEq, Repr

/-- kalakriti.models.Product. -/
structure ProductRow where
  id : Nat
  name : String
  slug : String
  description : String
  category : Option Nat
  region : Option Nat
  artisan : Option Nat
  seller : Option Nat
  price : Money
  originalPrice : Option Money
  stock : Int
  image : String
  galleryImages : List String
  featured : Bool
  inStock : Bool
  rating : Nat
  reviewsCount : Nat
deriving DecidableEq, Repr

/-- kalakriti.models.CulturalStory. -/
structure StoryRow where
  id : Nat
  title : String
  slug : String
  content : String
  author : String
  featuredImage : String
  region : Nat
  category : String
  published : Bool
deriving DecidableEq, Repr

/-- kalakriti.models.StoryPost. -/
structure StoryPostRow where
  id : Nat
  user : Nat
  content : String
  mentionedProduct : Option Nat
  mentionedArtisan : Option Nat
deriving DecidableEq, Repr

/-- kalakriti.models.GalleryImage. -/
structure GalleryRow where
  id : Nat
  title : String
  image : String
  description : String
  artisan : Option Nat
  product : Option Nat
  region : Option Nat
  featured : Bool
deriving DecidableEq, Repr

/-- kalakriti.models.Order. -/
structure OrderRow where
  id : Nat
  user : Nat
  totalAmount : Money
  status : String
  shippingAddress : String
deriving DecidableEq, Repr

/-- kalakriti.models.OrderItem. -/
structure OrderItemRow where
  id : Nat
  order : Nat
  product : Nat
  quantity : Int
  price : Money
deriving DecidableEq, Repr

/-- kalakriti.models.Newsletter. -/
structure NewsletterRow where
  id : Nat
  email : String
deriving DecidableEq, Repr

/-- kalakriti.models.Favorite. -/
structure FavoriteRow where
  id : Nat
  user : Nat
  product : Nat
deriving DecidableEq, Repr

/-- kalakriti.EmailOTP, declared in migration 0004_emailotp.py (user FK is
CASCADE onto auth.User). -/
structure EmailOtpRow where
  id : Nat
  user : Nat
  code : String
  isUsed : Bool
  attempts : Int
deriving DecidableEq, Repr

/-- The database: one list per table, in insertion order, plus an id
counter. -/
structure State where
  users : List UserRow
  profiles : List ProfileRow
  sellers : List SellerRow
  sellerProducts : List SellerProductRow
  productActivities : List ActivityRow
  categories : List CategoryRow
  regions : List RegionRow
  artisans : List ArtisanRow
  products : List ProductRow
  culturalStories : List StoryRow
  storyPosts : List StoryPostRow
  galleryImages : List GalleryRow
  orders : List OrderRow
  orderItems : List OrderItemRow
  newsletters : List NewsletterRow
  favorites : List FavoriteRow
  emailOtps : List EmailOtpRow
  nextId : Nat
deriving DecidableEq, Repr

def emptyState : State :=
  { users := [], profiles := [], sellers := [], sellerProducts := [],
    productActivities := [], categories := [], regions := [], artisans := [],
    products := [], culturalStories := [], storyPosts := [],
    galleryImages := [], orders := [], orderItems := [], newsletters := [],
    favorites := [], emailOtps := [], nextId := 0 }

/-- The media directory, as the list of image files present. -/
abbrev FS := List String

/-- First match of a boolean predicate (QuerySet row lookup). -/
def findRow (p : α → Bool) : List α → Option α
  | [] => none
  | a :: l => if p a then some a else findRow p l

/-- Python string slicing `s[:n]` (structural-recursion version of
String.take, so that proofs can evaluate it). -/
def takeChars (s : String) (n : Nat) : String :=
  String.mk (s.data.take n)

/-- Python `str.upper()`. -/
def upper (s : String) : String :=
  String.mk (s.data.map Char.toUpper)

def digitChar (n : Nat) : Char :=
  Char.ofNat (48 + n)

/-- Decimal digits of `n`, computed with a structural fuel argument. -/
def natDigits : Nat → Nat → List Char
  | 0, _ => []
  | fuel + 1, n =>
    if n < 10 then [digitChar n]
    else natDigits fuel (n / 10) ++ [digitChar (n % 10)]

/-- Decimal rendering of a Nat (structural-recursion version of toString). -/
def natToStr (n : Nat) : String :=
  String.mk (natDigits (n + 1) n)

/-- django.utils.text.slugify restricted to the inputs the seeder uses:
lower-case, drop characters that are not alphanumeric, space, hyphen or
underscore, and turn spaces into hyphens. -/
def slugify (s : String) : String :=
  String.mk (((s.data.map Char.toLower).filter
    (fun c => c.isAlphanum || c = ' ' || c = '-' || c = '_')).map
    (fun c => if c = ' ' then '-' else c))

/-- Membership of an id in a list of deleted ids. -/
def hitsAny (dead : List Nat) (i : Nat) : Bool :=
  dead.any (fun j => j == i)

/-!  Deletion semantics.  Each `deleteXsBy f` removes every X row whose own
column matches `f` and applies the on_delete policies declared on the foreign
keys pointing at X (CASCADE removes the referencing row, SET_NULL clears the
reference), recursively for cascaded rows, exactly as Django's collector
does.  Cascades are keyed on the list of ids actually removed. -/

/-- Delete the Category rows matching `f`: Product.category is SET_NULL. -/
def deleteCategoriesBy (f : Nat → Bool) (st : State) : State :=
  let dead := (st.categories.filter (fun c => f c.id)).map (fun c => c.id)
  { st with
    categories := st.categories.filter (fun c => !f c.id)
    products := st.products.map (fun p =>
      if (p.category.map (hitsAny dead)).getD false then
        { p with category := none }
      else p) }

/-- Delete the Seller rows matching `f`: SellerProduct.seller and
ProductActivity.seller are CASCADE, Product.seller is SET_NULL. -/
def deleteSellersBy (f : Nat → Bool) (st : State) : State :=
  let dead := (st.sellers.filter (fun s => f s.id)).map (fun s => s.id)
  { st with
    sellers := st.sellers.filter (fun s => !f s.id)
    sellerProducts := st.sellerProducts.filter (fun r => !hitsAny dead r.seller)
    productActivities := st.productActivities.filter (fun r => !hitsAny dead r.seller)
    products := st.products.map (fun p =>
      if (p.seller.map (hitsAny dead)).getD false then
        { p with seller := none }
      else p) }

/-- Delete the Product rows matching `f`: OrderItem.product,
SellerProduct.product, ProductActivity.product, Favorite.product and
GalleryImage.product are CASCADE; StoryPost.mentioned_product is SET_NULL. -/
def deleteProductsBy (f : Nat → Bool) (st : State) : State :=
  let dead := (st.products.filter (fun p => f p.id)).map (fun p => p.id)
  { st with
    products := st.products.filter (fun p => !f p.id)
    orderItems := st.orderItems.filter (fun r => !hitsAny dead r.product)
    sellerProducts := st.sellerProducts.filter (fun r => !hitsAny dead r.product)
    productActivities := st.productActivities.filter (fun r => !hitsAny dead r.product)
    favorites := st.favorites.filter (fun r => !hitsAny dead r.product)
    galleryImages := st.galleryImages.filter (fun g =>
      !(g.product.map (hitsAny dead)).getD false)
    storyPosts := st.storyPosts.map (fun p =>
      if (p.mentionedProduct.map (hitsAny dead)).getD false then
        { p with mentionedProduct := none }
      else p) }

/-- Delete the Artisan rows matching `f`: GalleryImage.artisan is CASCADE;
Product.artisan and StoryPost.mentioned_artisan are SET_NULL. -/
def deleteArtisansBy (f : Nat → Bool) (st : State) : State :=
  let dead := (st.artisans.filter (fun a => f a.id)).map (fun a => a.id)
  { st with
    artisans := st.artisans.filter (fun a => !f a.id)
    galleryImages := st.galleryImages.filter (fun g =>
      !(g.artisan.map (hitsAny dead)).getD false)
    products := st.products.map (fun p =>
      if (p.artisan.map (hitsAny dead)).getD false then { p with artisan := none } else p)
    storyPosts := st.storyPosts.map (fun p =>
      if (p.mentionedArtisan.map (hitsAny dead)).getD false then
        { p with mentionedArtisan := none }
      else p) }

/-- Delete the Region rows matching `f`: Artisan.region and
CulturalStory.region are CASCADE (with the artisans' own cascades),
GalleryImage.region is CASCADE, Product.region is SET_NULL. -/
def deleteRegionsBy (f : Nat → Bool) (st : State) : State :=
  let dead := (st.regions.filter (fun r => f r.id)).map (fun r => r.id)
  let deadArtisans :=
    (st.artisans.filter (fun a => hitsAny dead a.region)).map (fun a => a.id)
  let st := deleteArtisansBy (hitsAny deadArtisans) st
  { st with
    regions := st.regions.filter (fun r => !f r.id)
    culturalStories := st.culturalStories.filter (fun s => !hitsAny dead s.region)
    galleryImages := st.galleryImages.filter (fun g =>
      !(g.region.map (hitsAny dead)).getD false)
    products := st.products.map (fun p =>
      if (p.region.map (hitsAny dead)).getD false then
        { p with region := none }
      else p) }

/-- Delete the Order rows whose id matches `f`: OrderItem.order is CASCADE. -/
def deleteOrdersBy (f : Nat → Bool) (st : State) : State :=
  let dead := (st.orders.filter (fun o => f o.id)).map (fun o => o.id)
  { st with
    orders := st.orders.filter (fun o => !f o.id)
    orderItems := st.orderItems.filter (fun r => !hitsAny dead r.order) }

/-- Delete the User rows matching `f`: UserProfile.user, Seller.user (with
the sellers' own cascades), Order.user (with order-item cascades),
StoryPost.user, Favorite.user and EmailOTP.user are CASCADE;
ProductActivity.user is SET_NULL. -/
def deleteUsersBy (f : UserRow → Bool) (st : State) : State :=
  let dead := (st.users.filter f).map (fun u => u.id)
  let df := hitsAny dead
  let deadSellers := (st.sellers.filter (fun s => df s.user)).map (fun s => s.id)
  let st := deleteSellersBy (hitsAny deadSellers) st
  let deadOrders := (st.orders.filter (fun o => df o.user)).map (fun o => o.id)
  let st := deleteOrdersBy (hitsAny deadOrders) st
  { st with
    users := st.users.filter (fun u => !df u.id)
    profiles := st.profiles.filter (fun p => !df p.user)
    storyPosts := st.storyPosts.filter (fun p => !df p.user)
    favorites := st.favorites.filter (fun r => !df r.user)
    emailOtps := st.emailOtps.filter (fun r => !df r.user)
    productActivities := st.productActivities.map (fun a =>
      if (a.user.map df).getD false then { a with user := none } else a) }

/-- Command._reset_data: bulk-delete the listed tables in source order, then
delete every non-superuser User. -/
def resetData (st : State) : State :=
  let st := { st with orderItems := [] }
  let st := deleteOrdersBy (fun _ => true) st
  let st := { st with productActivities := [] }
  let st := { st with sellerProducts := [] }
  let st := deleteProductsBy (fun _ => true) st
  let st := { st with galleryImages := [] }
  let st := { st with culturalStories := [] }
  let st := { st with storyPosts := [] }
  let st := deleteArtisansBy (fun _ => true) st
  let st := deleteSellersBy (fun _ => true) st
  let st := { st with profiles := [] }
  let st := { st with newsletters := [] }
  let st := deleteCategoriesBy (fun _ => true) st
  let st := deleteRegionsBy (fun _ => true) st
  deleteUsersBy (fun u => !u.isSuperuser) st

/-!  Command._create_images and Command._color_for. -/

/-- The (relative path, label) pairs of Command._create_images. -/
def imageItems : List (String × String) :=
  [("categories/textiles.jpg", "Textiles"),
   ("categories/pottery.jpg", "Pottery"),
   ("categories/jewelry.jpg", "Jewelry"),
   ("categories/paintings.jpg", "Paintings"),
   ("regions/rajasthan.jpg", "Rajasthan"),
   ("regions/gujarat.jpg", "Gujarat"),
   ("regions/west-bengal.jpg", "West Bengal"),
   ("regions/tamil-nadu.jpg", "Tamil Nadu"),
   ("artisans/meera-sharma.jpg", "Meera"),
   ("artisans/arjun-patel.jpg", "Arjun"),
   ("artisans/riya-sen.jpg", "Riya"),
   ("artisans/karthik-iyer.jpg", "Karthik"),
   ("products/blue-pottery-vase.jpg", "Blue Vase"),
   ("products/ajrakh-stole.jpg", "Ajrakh"),
   ("products/terracotta-lamp.jpg", "Lamp"),
   ("products/kalamkari-wall-art.jpg", "Kalamkari"),
   ("products/silver-jhumkas.jpg", "Jhumkas"),
   ("products/kantha-throw.jpg", "Kantha"),
   ("stories/heritage-textiles.jpg", "Heritage"),
   ("stories/craft-traditions.jpg", "Traditions"),
   ("gallery/loom.jpg", "Loom"),
   ("gallery/atelier.jpg", "Atelier"),
   ("shop_logos/sadbhav-crafts.jpg", "Sadbhav"),
   ("shop_logos/raaga-studio.jpg", "Raaga"),
   ("shop_logos/sundar-collective.jpg", "Sundar"),
   ("profiles/buyer1.jpg", "Buyer"),
   ("profiles/buyer2.jpg", "Buyer")]

/-- Command._color_for: re-seeds the global generator with the label and
draws three channel values. -/
def colorFor (label : String) (_r : RandState) : (Nat × Nat × Nat) × RandState :=
  let r := seedRand label
  let a := randint 40 200 r
  let b := randint 40 200 a.2
  let g := randint 40 200 b.2
  ((a.1, b.1, g.1), g.2)

/-- One iteration of the _create_images loop: skip the item when the file
exists, otherwise pick a colour (which seeds the generator) and save it. -/
def imageStep (x : FS × RandState) (it : String × String) : FS × RandState :=
  if it.1 ∈ x.1 then x
  else
    let col := colorFor it.2 x.2
    (x.1 ++ [it.1], col.2)

/-- Command._create_images. -/
def createImages (fs : FS) (r : RandState) : FS × RandState :=
  imageItems.foldl imageStep (fs, r)

/-!  The seed stages.  `Sd` is the evolving run context: database state,
generator state, and the trace of stages that have executed. -/

structure Sd where
  st : State
  rng : RandState
  tr : List String

inductive SeedErr where
  | skuTaken
  | sellerMissing
deriving DecidableEq, Repr

def dfltUser : UserRow :=
  { id := 0, username := "", email := "", password := none,
    isStaff := false, isSuperuser := false }

def dfltRegion : RegionRow :=
  { id := 0, name := "", slug := "", description := "", image := "",
    culturalHeritage := "" }

def dfltCategory : CategoryRow :=
  { id := 0, name := "", slug := "", description := "", image := "" }

def dfltArtisan : ArtisanRow :=
  { id := 0, name := "", slug := "", bio := "", image := "", region := 0,
    specialty := "", yearsOfExperience := 0, email := "", phone := "",
    website := "", instagram := "", featured := false }

def dfltSeller : SellerRow :=
  { id := 0, user := 0, shopName := "", shopDescription := "", shopLogo := "",
    phone := "", state := "", bankAccount := "", bankName := "", ifscCode := "",
    totalProducts := 0, totalSales := 0, rating := 0, isVerified := false,
    isActive := true }

def dfltProduct : ProductRow :=
  { id := 0, name := "", slug := "", description := "", category := none,
    region := none, artisan := none, seller := none, price := 0,
    originalPrice := none, stock := 0, image := "", galleryImages := [],
    featured := false, inStock := true, rating := 0, reviewsCount := 0 }

/-!  Command._create_users. -/

/-- The python `users` dict entries. -/
structure UsersCtx where
  admin : UserRow
  buyer1 : UserRow
  buyer2 : UserRow
  seller1 : UserRow
  seller2 : UserRow
  seller3 : UserRow

/-- User.objects.get_or_create(username="admin", defaults={...}). -/
def getOrCreateAdmin (st : State) : State × UserRow :=
  match findRow (fun u => u.username == "admin") st.users with
  | some u => (st, u)
  | none =>
    let u : UserRow :=
      { id := st.nextId, username := "admin",
        email := "admin@kala.local", password := none,
        isStaff := true, isSuperuser := true }
    ({ st with users := st.users ++ [u], nextId := st.nextId + 1 }, u)

/-- user.set_password(pw); user.save(update_fields=["password"]). -/
def setPassword (st : State) (uid : Nat) (pw : String) : State :=
  { st with users := st.users.map (fun u =>
      if u.id == uid then { u with password := some pw } else u) }

/-- The admin block of Command._create_users. -/
def seedAdmin (st : State) : State × UserRow :=
  let r := getOrCreateAdmin st
  if r.2.password.isSome then r
  else (setPassword r.1 r.2.id "Admin123!", { r.2 with password := some "Admin123!" })

/-- User.objects.get_or_create(username=..., defaults={"email": ...});
also returns the `created` flag. -/
def getOrCreateUser (st : State) (uname email : String) : State × UserRow × Bool :=
  match findRow (fun u => u.username == uname) st.users with
  | some u => (st, u, false)
  | none =>
    let u : UserRow :=
      { id := st.nextId, username := uname, email := email,
        password := none, isStaff := false, isSuperuser := false }
    ({ st with users := st.users ++ [u], nextId := st.nextId + 1 }, u, true)

/-- Command._get_or_create_user. -/
def seedUser (st : State) (uname email pw : String) : State × UserRow :=
  let r := getOrCreateUser st uname email
  if r.2.2 || !r.2.1.password.isSome then
    (setPassword r.1 r.2.1.id pw, { r.2.1 with password := some pw })
  else (r.1, r.2.1)

/-- Command._create_profile. -/
def createProfile (st : State) (u : UserRow) (utype phone city : String) : State :=
  match findRow (fun p => p.user == u.id) st.profiles with
  | some _ => st
  | none =>
    { st with
      profiles := st.profiles ++
        [{ id := st.nextId, user := u.id, userType := utype, phone := phone,
           address := city ++ " Heritage Street, Craft Block", city := city,
           state := "India", pincode := "302001",
           profileImage := if utype == "buyer" then "profiles/buyer1.jpg"
                           else "profiles/buyer2.jpg",
           termsVersion := "v1", sellerVerified := false }],
      nextId := st.nextId + 1 }

/-- Command._create_users. -/
def createUsers (c : Sd) : Sd × UsersCtx :=
  let a := seedAdmin c.st
  let b1 := seedUser a.1 "neha" "neha@kala.local" "Kala123!"
  let b2 := seedUser b1.1 "vikram" "vikram@kala.local" "Kala123!"
  let s1 := seedUser b2.1 "sadbhav" "sadbhav@kala.local" "Kala123!"
  let s2 := seedUser s1.1 "raaga" "raaga@kala.local" "Kala123!"
  let s3 := seedUser s2.1 "sundar" "sundar@kala.local" "Kala123!"
  let st := createProfile s3.1 b1.2 "buyer" "+91-9876543210" "Jaipur"
  let st := createProfile st b2.2 "buyer" "+91-9898989898" "Ahmedabad"
  let st := createProfile st s1.2 "seller" "+91-9000000001" "Jaipur"
  let st := createProfile st s2.2 "seller" "+91-9000000002" "Kolkata"
  let st := createProfile st s3.2 "seller" "+91-9000000003" "Chennai"
  ({ c with st := st, tr := c.tr ++ ["users"] },
   { admin := a.2, buyer1 := b1.2, buyer2 := b2.2,
     seller1 := s1.2, seller2 := s2.2, seller3 := s3.2 })

/-!  Command._create_regions and Command._create_categories. -/

def regionEntries : List (String × String) :=
  [("Rajasthan",
    "Vibrant desert culture with block printing, blue pottery, and mirror work."),
   ("Gujarat",
    "Home to Ajrakh, Patola, and folk embroidery traditions."),
   ("West Bengal",
    "Known for Kantha, terracotta, and storytelling through textiles."),
   ("Tamil Nadu",
    "Celebrated for Kalamkari, bronze casting, and temple arts.")]

/-- Region.objects.get_or_create(slug=..., defaults={...}). -/
def getOrCreateRegion (st : State) (slug nm descr img heritage : String) :
    State × RegionRow :=
  match findRow (fun r => r.slug == slug) st.regions with
  | some r => (st, r)
  | none =>
    let r : RegionRow :=
      { id := st.nextId, name := nm, slug := slug,
        description := descr, image := img, culturalHeritage := heritage }
    ({ st with regions := st.regions ++ [r], nextId := st.nextId + 1 }, r)

def regionStep (x : Sd × List RegionRow) (e : String × String) :
    Sd × List RegionRow :=
  let slug := slugify e.1
  let r := getOrCreateRegion x.1.st slug e.1 e.2
    ("regions/" ++ slug ++ ".jpg")
    (e.1 ++ " preserves legacy craft communities and heritage guilds.")
  ({ x.1 with st := r.1 }, x.2 ++ [r.2])

/-- Command._create_regions. -/
def createRegions (c : Sd) : Sd × List RegionRow :=
  regionEntries.foldl regionStep ({ c with tr := c.tr ++ ["regions"] }, [])

def categoryEntries : List (String × String) :=
  [("Textiles", "Handwoven stoles, sarees, and throws."),
   ("Pottery", "Terracotta and glazed ceramic pieces."),
   ("Jewelry", "Silver, beadwork, and folk accessories."),
   ("Paintings", "Narrative paintings and wall art.")]

/-- Category.objects.get_or_create(slug=..., defaults={...}). -/
def getOrCreateCategory (st : State) (slug nm descr img : String) :
    State × CategoryRow :=
  match findRow (fun r => r.slug == slug) st.categories with
  | some r => (st, r)
  | none =>
    let r : CategoryRow :=
      { id := st.nextId, name := nm, slug := slug,
        description := descr, image := img }
    ({ st with categories := st.categories ++ [r], nextId := st.nextId + 1 }, r)

def categoryStep (x : Sd × List CategoryRow) (e : String × String) :
    Sd × List CategoryRow :=
  let slug := slugify e.1
  let r := getOrCreateCategory x.1.st slug e.1 e.2
    ("categories/" ++ slug ++ ".jpg")
  ({ x.1 with st := r.1 }, x.2 ++ [r.2])

/-- Command._create_categories. -/
def createCategories (c : Sd) : Sd × List CategoryRow :=
  categoryEntries.foldl categoryStep ({ c with tr := c.tr ++ ["categories"] }, [])

/-!  Command._create_artisans. -/

structure ArtisanEntry where
  name : String
  bio : String
  specialty : String
  experience : Nat
  region : RegionRow
  featured : Bool

def artisanEntries (regs : List RegionRow) : List ArtisanEntry :=
  [{ name := "Meera Sharma",
     bio := "Blue pottery artisan specializing in floral glaze work.",
     specialty := "Blue Pottery", experience := 12,
     region := regs.getD 0 dfltRegion, featured := true },
   { name := "Arjun Patel",
     bio := "Ajrakh block printer with a focus on natural dyes.",
     specialty := "Ajrakh Printing", experience := 18,
     region := regs.getD 1 dfltRegion, featured := true },
   { name := "Riya Sen",
     bio := "Kantha storyteller bringing heritage motifs to modern throws.",
     specialty := "Kantha Embroidery", experience := 10,
     region := regs.getD 2 dfltRegion, featured := false },
   { name := "Karthik Iyer",
     bio := "Kalamkari painter known for temple-inspired wall art.",
     specialty := "Kalamkari", experience := 15,
     region := regs.getD 3 dfltRegion, featured := false }]

/-- Artisan.objects.get_or_create(slug=..., defaults={...}). -/
def getOrCreateArtisan (st : State) (slug : String) (e : ArtisanEntry) :
    State × ArtisanRow :=
  match findRow (fun r => r.slug == slug) st.artisans with
  | some r => (st, r)
  | none =>
    let r : ArtisanRow :=
      { id := st.nextId, name := e.name, slug := slug,
        bio := e.bio, image := "artisans/" ++ slug ++ ".jpg",
        region := e.region.id, specialty := e.specialty,
        yearsOfExperience := e.experience, email := slug ++ "@kala.local",
        phone := "+91-9000011122",
        website := "https://" ++ slug ++ ".example.com",
        instagram := "https://instagram.com/" ++ slug, featured := e.featured }
    ({ st with artisans := st.artisans ++ [r], nextId := st.nextId + 1 }, r)

def artisanStep (x : Sd × List ArtisanRow) (e : ArtisanEntry) :
    Sd × List ArtisanRow :=
  let slug := slugify e.name
  let r := getOrCreateArtisan x.1.st slug e
  ({ x.1 with st := r.1 }, x.2 ++ [r.2])

/-- Command._create_artisans. -/
def createArtisans (c : Sd) (regs : List RegionRow) : Sd × List ArtisanRow :=
  (artisanEntries regs).foldl artisanStep
    ({ c with tr := c.tr ++ ["artisans"] }, [])

/-!  Command._create_sellers. -/

structure SellerEntry where
  user : UserRow
  shopName : String
  shopDescription : String
  state : String
  shopLogo : String

def sellerEntries (uc : UsersCtx) (regs : List RegionRow) : List SellerEntry :=
  [{ user := uc.seller1, shopName := "Sadbhav Crafts",
     shopDescription := "Curated heritage crafts from Rajasthan.",
     state := (regs.getD 0 dfltRegion).name,
     shopLogo := "shop_logos/sadbhav-crafts.jpg" },
   { user := uc.seller2, shopName := "Raaga Studio",
     shopDescription := "Textile studio celebrating Bengal artisans.",
     state := (regs.getD 2 dfltRegion).name,
     shopLogo := "shop_logos/raaga-studio.jpg" },
   { user := uc.seller3, shopName := "Sundar Collective",
     shopDescription := "Southern crafts and ritual art pieces.",
     state := (regs.getD 3 dfltRegion).name,
     shopLogo := "shop_logos/sundar-collective.jpg" }]

/-- Seller.objects.get_or_create(user=..., defaults={...}); the rating was
already drawn when the defaults dict was evaluated. -/
def getOrCreateSeller (st : State) (e : SellerEntry) (rate : Nat) :
    State × SellerRow :=
  match findRow (fun s => s.user == e.user.id) st.sellers with
  | some s => (st, s)
  | none =>
    let s : SellerRow :=
      { id := st.nextId, user := e.user.id, shopName := e.shopName,
        shopDescription := e.shopDescription, shopLogo := e.shopLogo,
        phone := "+91-9000000000", state := e.state,
        bankAccount := "1234567890", bankName := "Kala Bank",
        ifscCode := "KALA0001234", totalProducts := 0, totalSales := 0,
        rating := rate, isVerified := true, isActive := true }
    ({ st with sellers := st.sellers ++ [s], nextId := st.nextId + 1 }, s)

def sellerStep (x : Sd × List SellerRow) (e : SellerEntry) :
    Sd × List SellerRow :=
  let d := uniform2 420 490 x.1.rng
  let r := getOrCreateSeller x.1.st e d.1
  ({ x.1 with st := r.1, rng := d.2 }, x.2 ++ [r.2])

/-- Command._create_sellers. -/
def createSellers (c : Sd) (uc : UsersCtx) (regs : List RegionRow) :
    Sd × List SellerRow :=
  (sellerEntries uc regs).foldl sellerStep
    ({ c with tr := c.tr ++ ["sellers"] }, [])

/-!  Command._create_products. -/

structure ProductEntry where
  name : String
  descr : String
  category : CategoryRow
  region : RegionRow
  artisan : ArtisanRow
  seller : SellerRow
  price : Money
  image : String
  featured : Bool
  stock : Int

def productEntries (cats : List CategoryRow) (regs : List RegionRow)
    (arts : List ArtisanRow) (sells : List SellerRow) : List ProductEntry :=
  [{ name := "Blue Pottery Vase",
     descr := "Hand-painted blue pottery vase with floral patterns.",
     category := cats.getD 1 dfltCategory, region := regs.getD 0 dfltRegion,
     artisan := arts.getD 0 dfltArtisan, seller := sells.getD 0 dfltSeller,
     price := 249900, image := "products/blue-pottery-vase.jpg",
     featured := true, stock := 12 },
   { name := "Ajrakh Cotton Stole",
     descr := "Naturally dyed Ajrakh stole with geometric motifs.",
     category := cats.getD 0 dfltCategory, region := regs.getD 1 dfltRegion,
     artisan := arts.getD 1 dfltArtisan, seller := sells.getD 0 dfltSeller,
     price := 189900, image := "products/ajrakh-stole.jpg",
     featured := true, stock := 25 },
   { name := "Terracotta Lamp",
     descr := "Handcrafted terracotta lamp with cutwork design.",
     category := cats.getD 1 dfltCategory, region := regs.getD 2 dfltRegion,
     artisan := arts.getD 2 dfltArtisan, seller := sells.getD 1 dfltSeller,
     price := 159900, image := "products/terracotta-lamp.jpg",
     featured := false, stock := 18 },
   { name := "Kalamkari Wall Art",
     descr := "Detailed Kalamkari wall art inspired by temple narratives.",
     category := cats.getD 3 dfltCategory, region := regs.getD 3 dfltRegion,
     artisan := arts.getD 3 dfltArtisan, seller := sells.getD 2 dfltSeller,
     price := 319900, image := "products/kalamkari-wall-art.jpg",
     featured := true, stock := 8 },
   { name := "Silver Jhumkas",
     descr := "Hand-finished silver jhumkas with bead detailing.",
     category := cats.getD 2 dfltCategory, region := regs.getD 1 dfltRegion,
     artisan := arts.getD 1 dfltArtisan, seller := sells.getD 2 dfltSeller,
     price := 129900, image := "products/silver-jhumkas.jpg",
     featured := true, stock := 32 },
   { name := "Kantha Throw",
     descr := "Soft Kantha throw with layered storytelling motifs.",
     category := cats.getD 0 dfltCategory, region := regs.getD 2 dfltRegion,
     artisan := arts.getD 2 dfltArtisan, seller := sells.getD 1 dfltSeller,
     price := 279900, image := "products/kantha-throw.jpg",
     featured := false, stock := 14 }]

/-- Product.objects.get_or_create(slug=..., defaults={...}); rating and
reviews_count were drawn when the defaults dict was evaluated. -/
def getOrCreateProduct (st : State) (slug : String) (e : ProductEntry)
    (rate rc : Nat) : State × ProductRow :=
  match findRow (fun p => p.slug == slug) st.products with
  | some p => (st, p)
  | none =>
    let p : ProductRow :=
      { id := st.nextId, name := e.name, slug := slug, description := e.descr,
        category := some e.category.id, region := some e.region.id,
        artisan := some e.artisan.id, seller := some e.seller.id,
        price := e.price, originalPrice := some (e.price + 40000),
        stock := e.stock, image := e.image, galleryImages := [e.image],
        featured := e.featured, inStock := decide (0 < e.stock),
        rating := rate, reviewsCount := rc }
    ({ st with products := st.products ++ [p], nextId := st.nextId + 1 }, p)

def productStep (x : Sd × List ProductRow) (e : ProductEntry) :
    Sd × List ProductRow :=
  let d1 := uniform2 410 490 x.1.rng
  let d2 := randint 6 42 d1.2
  let r := getOrCreateProduct x.1.st (slugify e.name) e d1.1 d2.1
  ({ x.1 with st := r.1, rng := d2.2 }, x.2 ++ [r.2])

/-- The per-seller counter update at the end of Command._create_products:
recompute total_products and overwrite total_sales with a fresh draw. -/
def sellerUpdateStep (c : Sd) (s : SellerRow) : Sd :=
  let cnt := (c.st.products.filter (fun p => p.seller == some s.id)).length
  let d := randint 50 200 c.rng
  let sl := c.st.sellers.map (fun t =>
    if t.id == s.id then
      { t with totalProducts := (cnt : Int), totalSales := (d.1 : Int) * 10000 }
    else t)
  { c with rng := d.2, st := { c.st with sellers := sl } }

/-- Command._create_products. -/
def createProducts (c : Sd) (cats : List CategoryRow) (regs : List RegionRow)
    (arts : List ArtisanRow) (sells : List SellerRow) : Sd × List ProductRow :=
  let x := (productEntries cats regs arts sells).foldl productStep
    ({ c with tr := c.tr ++ ["products"] }, [])
  (sells.foldl sellerUpdateStep x.1, x.2)

/-!  Command._create_seller_products.  The SKU suffix is drawn when the
defaults dict is evaluated; creating with a null seller or a taken SKU is an
IntegrityError. -/

def spStep (c : Sd) (p : ProductRow) : Except SeedErr Sd :=
  let d := randint 1000 9999 c.rng
  let c := { c with rng := d.2 }
  let sku := upper (takeChars p.slug 10) ++ "-" ++ natToStr d.1
  match p.seller with
  | none => .error .sellerMissing
  | some sid =>
    match findRow (fun r => r.seller == sid && r.product == p.id)
        c.st.sellerProducts with
    | some _ => .ok c
    | none =>
      if c.st.sellerProducts.any (fun r => r.sellerSku == sku) then
        .error .skuTaken
      else
        .ok { c with st := { c.st with
          sellerProducts := c.st.sellerProducts ++
            [{ id := c.st.nextId, seller := sid, product := p.id,
               sellerSku := sku, sellerPrice := p.price,
               sellerStock := p.stock }],
          nextId := c.st.nextId + 1 } }

/-- Command._create_seller_products. -/
def createSellerProducts (c : Sd) (prods : List ProductRow) :
    Except SeedErr Sd :=
  prods.foldlM spStep { c with tr := c.tr ++ ["seller_products"] }

/-!  Command._create_stories. -/

structure StoryEntry where
  title : String
  content : String
  region : RegionRow

def storyEntries (regs : List RegionRow) : List StoryEntry :=
  [{ title := "Threads of the Desert",
     content := "Rajasthan\x27s textile heritage blends color, mirror work, and nomadic tales.",
     region := regs.getD 0 dfltRegion },
   { title := "Ajrakh and the Rhythm of Print",
     content := "Ajrakh printing is a ritual of dye, patience, and geometry.",
     region := regs.getD 1 dfltRegion },
   { title := "Kantha: Stories in Stitches",
     content := "Bengal\x27s Kantha reflects memory, daily life, and resilience.",
     region := regs.getD 2 dfltRegion },
   { title := "Temple Murals and Kalamkari",
     content := "Tamil Nadu\x27s Kalamkari connects myth, craft, and devotion.",
     region := regs.getD 3 dfltRegion }]

/-- CulturalStory.objects.get_or_create(slug=..., defaults={...}). -/
def getOrCreateStory (st : State) (slug : String) (e : StoryEntry) : State :=
  match findRow (fun s => s.slug == slug) st.culturalStories with
  | some _ => st
  | none =>
    { st with
      culturalStories := st.culturalStories ++
        [{ id := st.nextId, title := e.title, slug := slug,
           content := e.content, author := "Kala Editorial",
           featuredImage := "stories/heritage-textiles.jpg",
           region := e.region.id, category := "Heritage", published := true }],
      nextId := st.nextId + 1 }

def storyStep (c : Sd) (e : StoryEntry) : Sd :=
  { c with st := getOrCreateStory c.st (slugify e.title) e }

/-- Command._create_stories. -/
def createStories (c : Sd) (regs : List RegionRow) : Sd :=
  (storyEntries regs).foldl storyStep { c with tr := c.tr ++ ["stories"] }

/-!  Command._create_story_posts. -/

def storyPostEntries (uc : UsersCtx) : List (UserRow × String) :=
  [(uc.buyer1, "Visited the artisans market today. The detailing was incredible."),
   (uc.buyer2, "Just got my handcrafted order. Quality is amazing and delivery was smooth."),
   (uc.seller1, "New hand-painted collection just dropped this week."),
   (uc.seller2, "Working on fresh textile patterns inspired by Bengal heritage."),
   (uc.seller3, "Thank you for the support on our latest craft launch!")]

/-- The filter(...).exists() guard plus StoryPost.objects.create. -/
def seedStoryPost (st : State) (u : UserRow) (content : String) : State :=
  if st.storyPosts.any (fun p => p.user == u.id && p.content == content) then st
  else
    { st with
      storyPosts := st.storyPosts ++
        [{ id := st.nextId, user := u.id, content := content,
           mentionedProduct := none, mentionedArtisan := none }],
      nextId := st.nextId + 1 }

def storyPostStep (c : Sd) (e : UserRow × String) : Sd :=
  { c with st := seedStoryPost c.st e.1 e.2 }

/-- Command._create_story_posts. -/
def createStoryPosts (c : Sd) (uc : UsersCtx) : Sd :=
  (storyPostEntries uc).foldl storyPostStep
    { c with tr := c.tr ++ ["story_posts"] }

/-!  Command._create_gallery. -/

structure GalleryEntry where
  title : String
  image : String
  artisan : Option Nat
  product : Option Nat
  region : Option Nat
  featured : Bool

def galleryEntries (arts : List ArtisanRow) (prods : List ProductRow)
    (regs : List RegionRow) : List GalleryEntry :=
  [{ title := "Loom in Motion", image := "gallery/loom.jpg",
     artisan := some (arts.getD 1 dfltArtisan).id, product := none,
     region := none, featured := true },
   { title := "Craft Atelier", image := "gallery/atelier.jpg",
     artisan := some (arts.getD 3 dfltArtisan).id, product := none,
     region := none, featured := false },
   { title := "Blue Pottery Detail", image := "gallery/loom.jpg",
     artisan := none, product := some (prods.getD 0 dfltProduct).id,
     region := none, featured := true },
   { title := "Terracotta Textures", image := "gallery/atelier.jpg",
     artisan := none, product := some (prods.getD 2 dfltProduct).id,
     region := none, featured := false },
   { title := "Desert Workshop", image := "gallery/loom.jpg",
     artisan := none, product := none,
     region := some (regs.getD 0 dfltRegion).id, featured := false }]

/-- GalleryImage.objects.get_or_create(title=..., defaults={...}). -/
def getOrCreateGallery (st : State) (e : GalleryEntry) : State :=
  match findRow (fun g => g.title == e.title) st.galleryImages with
  | some _ => st
  | none =>
    { st with
      galleryImages := st.galleryImages ++
        [{ id := st.nextId, title := e.title, image := e.image,
           description := e.title ++ " capturing the craft process.",
           artisan := e.artisan, product := e.product, region := e.region,
           featured := e.featured }],
      nextId := st.nextId + 1 }

def galleryStep (c : Sd) (e : GalleryEntry) : Sd :=
  { c with st := getOrCreateGallery c.st e }

/-- Command._create_gallery. -/
def createGallery (c : Sd) (arts : List ArtisanRow) (prods : List ProductRow)
    (regs : List RegionRow) : Sd :=
  (galleryEntries arts prods regs).foldl galleryStep
    { c with tr := c.tr ++ ["gallery"] }

/-!  Command._create_orders. -/

/-- Order.objects.get_or_create(user=..., status=..., defaults={...}). -/
def getOrCreateOrder (st : State) (uid : Nat) (status : String)
    (total : Money) (addr : String) : State × OrderRow :=
  match findRow (fun o => o.user == uid && o.status == status) st.orders with
  | some o => (st, o)
  | none =>
    let o : OrderRow :=
      { id := st.nextId, user := uid, totalAmount := total, status := status,
        shippingAddress := addr }
    ({ st with orders := st.orders ++ [o], nextId := st.nextId + 1 }, o)

/-- OrderItem.objects.get_or_create(order=..., product=..., defaults={...}). -/
def getOrCreateOrderItem (st : State) (oid pid : Nat) (qty : Int)
    (price : Money) : State :=
  match findRow (fun r => r.order == oid && r.product == pid) st.orderItems with
  | some _ => st
  | none =>
    { st with
      orderItems := st.orderItems ++
        [{ id := st.nextId, order := oid, product := pid, quantity := qty,
           price := price }],
      nextId := st.nextId + 1 }

/-- Command._create_orders. -/
def createOrders (c : Sd) (uc : UsersCtx) (prods : List ProductRow) : Sd :=
  let p0 := prods.getD 0 dfltProduct
  let p1 := prods.getD 1 dfltProduct
  let p5 := prods.getD 5 dfltProduct
  let o1 := getOrCreateOrder c.st uc.buyer1.id "delivered" 439800
    "Jaipur Heritage Street, 302001"
  let o2 := getOrCreateOrder o1.1 uc.buyer2.id "processing" 279900
    "Ahmedabad Craft Lane, 380001"
  let st := getOrCreateOrderItem o2.1 o1.2.id p0.id 1 p0.price
  let st := getOrCreateOrderItem st o1.2.id p1.id 1 p1.price
  let st := getOrCreateOrderItem st o2.2.id p5.id 1 p5.price
  { c with st := st, tr := c.tr ++ ["orders"] }

/-!  Command._create_product_activity: always ProductActivity.objects.create,
three rows per product, choices drawn when the call arguments are
evaluated. -/

def activityTypes : List String := ["view", "click", "add_cart", "purchase"]

def actInner (uc : UsersCtx) (p : ProductRow) (c : Sd) : Except SeedErr Sd :=
  let d1 := choiceD activityTypes "view" c.rng
  let d2 := choiceD [uc.buyer1, uc.buyer2] dfltUser d1.2
  match p.seller with
  | none => .error .sellerMissing
  | some sid =>
    let row : ActivityRow :=
      { id := c.st.nextId, seller := sid, product := p.id,
        activityType := d1.1, user := some d2.1.id,
        detailsSource := "seed", detailsRef := "homepage" }
    let st :=
      { c.st with
        productActivities := c.st.productActivities ++ [row],
        nextId := c.st.nextId + 1 }
    .ok { c with rng := d2.2, st := st }

def actProductStep (uc : UsersCtx) (c : Sd) (p : ProductRow) :
    Except SeedErr Sd :=
  ([0, 1, 2] : List Nat).foldlM (fun c _ => actInner uc p c) c

/-- Command._create_product_activity. -/
def createActivity (c : Sd) (prods : List ProductRow) (uc : UsersCtx) :
    Except SeedErr Sd :=
  prods.foldlM (actProductStep uc) { c with tr := c.tr ++ ["product_activity"] }

/-!  Command._create_newsletters. -/

/-- Newsletter.objects.get_or_create(email=...). -/
def getOrCreateNewsletter (st : State) (email : String) : State :=
  match findRow (fun n => n.email == email) st.newsletters with
  | some _ => st
  | none =>
    { st with
      newsletters := st.newsletters ++ [{ id := st.nextId, email := email }],
      nextId := st.nextId + 1 }

/-- Command._create_newsletters. -/
def createNewsletters (c : Sd) (uc : UsersCtx) : Sd :=
  { c with
    st := getOrCreateNewsletter (getOrCreateNewsletter c.st uc.buyer1.email)
      uc.buyer2.email,
    tr := c.tr ++ ["newsletters"] }

/-!  Command.handle. -/

/-- What a successful run of the transaction body produces. -/
structure SeedOut where
  state : State
  fs : FS
  tr : List String
deriving DecidableEq, Repr

/-- Everything Command.handle has produced once _create_products returns:
the run context plus the python locals handed to the later stages. -/
structure PreOut where
  c : Sd
  uc : UsersCtx
  regs : List RegionRow
  cats : List CategoryRow
  arts : List ArtisanRow
  sells : List SellerRow
  prods : List ProductRow

/-- The infallible prefix of the stage sequence: users, regions, categories,
artisans, sellers, products. -/
def seedPre (c0 : Sd) : PreOut :=
  let u := createUsers c0
  let rg := createRegions u.1
  let ct := createCategories rg.1
  let ar := createArtisans ct.1 rg.2
  let se := createSellers ar.1 u.2 rg.2
  let pr := createProducts se.1 ct.2 rg.2 ar.2 se.2
  { c := pr.1, uc := u.2, regs := rg.2, cats := ct.2, arts := ar.2,
    sells := se.2, prods := pr.2 }

/-- The infallible middle of the stage sequence: stories, story posts,
gallery, orders. -/
def seedMid (c1 : Sd) (p : PreOut) : Sd :=
  createOrders
    (createGallery (createStoryPosts (createStories c1 p.regs) p.uc)
      p.arts p.prods p.regs)
    p.uc p.prods

/-- The tail of the stage sequence from _create_seller_products on:
seller products, stories, story posts, gallery, orders, product activity,
newsletters (`fsv` is the media directory to report). -/
def seedFinish (pre : PreOut) (fsv : FS) : Except SeedErr SeedOut :=
  match createSellerProducts pre.c pre.prods with
  | .error e => .error e
  | .ok c1 =>
    match createActivity (seedMid c1 pre) pre.prods pre.uc with
    | .error e => .error e
    | .ok c6 =>
      let c7 := createNewsletters c6 pre.uc
      .ok { state := c7.st, fs := fsv, tr := c7.tr }

/-- The body of the `transaction.atomic()` block of Command.handle: optional
reset, image synthesis, then the construction stages in source order. -/
def seedBody (reset : Bool) (st0 : State) (fs0 : FS) (rng0 : RandState) :
    Except SeedErr SeedOut :=
  let st := if reset then resetData st0 else st0
  let im := createImages fs0 rng0
  seedFinish (seedPre { st := st, rng := im.2, tr := [] }) im.1

/-- The observable outcome of one `manage.py seed_data` invocation. -/
structure CmdOut where
  state : State
  fs : FS
  tr : List String
  ok : Bool

/-- Command.handle: `transaction.atomic()` commits the body's state on
success and rolls the database back to the pre-run state on error; image
files written before the failure stay on disk. -/
def runCommand (reset : Bool) (st : State) (fs : FS) (rng : RandState) :
    CmdOut :=
  match seedBody reset st fs rng with
  | .ok o => { state := o.state, fs := o.fs, tr := o.tr, ok := true }
  | .error _ =>
    { state := st, fs := (createImages fs rng).1, tr := [], ok := false }

/-!  The write operations of the program.  Creates go through the unique
constraints declared on the models (a violation raises IntegrityError and
the surrounding transaction leaves the row set unchanged); the price edit is
the Product "Pricing" admin fieldset; deletes follow the on_delete policies;
`seed` is one whole seed_data run. -/

inductive Op where
  | insertSellerProduct (seller product : Nat) (sku : String)
      (price : Money) (stock : Int)
  | insertNewsletter (email : String)
  | insertFavorite (user product : Nat)
  | setProductPrice (product : Nat) (price : Money)
  | deleteCategory (id : Nat)
  | deleteRegion (id : Nat)
  | deleteArtisan (id : Nat)
  | deleteSeller (id : Nat)
  | deleteProduct (id : Nat)
  | deleteUser (id : Nat)
  | seed (reset : Bool) (fs : FS) (rng : RandState)

def applyOp (o : Op) (st : State) : State :=
  match o with
  | .insertSellerProduct s p sku pr stk =>
    if st.sellerProducts.any (fun r => r.seller == s && r.product == p) ||
        st.sellerProducts.any (fun r => r.sellerSku == sku) then st
    else
      { st with
        sellerProducts := st.sellerProducts ++
          [{ id := st.nextId, seller := s, product := p, sellerSku := sku,
             sellerPrice := pr, sellerStock := stk }],
        nextId := st.nextId + 1 }
  | .insertNewsletter e =>
    if st.newsletters.any (fun r => r.email == e) then st
    else
      { st with
        newsletters := st.newsletters ++ [{ id := st.nextId, email := e }],
        nextId := st.nextId + 1 }
  | .insertFavorite u p =>
    if st.favorites.any (fun r => r.user == u && r.product == p) then st
    else
      { st with
        favorites := st.favorites ++ [{ id := st.nextId, user := u, product := p }],
        nextId := st.nextId + 1 }
  | .setProductPrice pid pr =>
    { st with products := st.products.map (fun p =>
        if p.id == pid then { p with price := pr } else p) }
  | .deleteCategory i => deleteCategoriesBy (fun j => j == i) st
  | .deleteRegion i => deleteRegionsBy (fun j => j == i) st
  | .deleteArtisan i => deleteArtisansBy (fun j => j == i) st
  | .deleteSeller i => deleteSellersBy (fun j => j == i) st
  | .deleteProduct i => deleteProductsBy (fun j => j == i) st
  | .deleteUser i => deleteUsersBy (fun u => u.id == i) st
  | .seed r fs rng => (runCommand r st fs rng).state

/-- Database states the program can produce from an empty database. -/
inductive Reachable : State → Prop
  | base : Reachable emptyState
  | step (o : Op) (st : State) : Reachable st → Reachable (applyOp o st)

/-!  Pairwise distinctness of table rows, as an executable check. -/

def distinctBy (f : α → α → Bool) : List α → Bool
  | [] => true
  | a :: l => l.all (f a) && distinctBy f l

/-- The two SellerProduct uniqueness constraints, for one ordered pair. -/
def spOkB (a b : SellerProductRow) : Bool :=
  (!(a.seller == b.seller && a.product == b.product)) &&
    (!(a.sellerSku == b.sellerSku))

/-- unique_together ("seller", "product") plus the unique seller_sku. -/
def spInv (st : State) : Prop :=
  distinctBy spOkB st.sellerProducts = true

/-- Newsletter.email is unique. -/
def nlInv (st : State) : Prop :=
  distinctBy (fun a b => !(a.email == b.email)) st.newsletters = true

/-- Favorite unique_together ("user", "product"). -/
def favInv (st : State) : Prop :=
  distinctBy (fun a b => !(a.user == b.user && a.product == b.product))
    st.favorites = true

/-!  Generic lemmas about folds. -/

theorem except_bind_ok {ε α β : Type _} (a : α) (f : α → Except ε β) :
    (Except.ok a >>= f) = f a := rfl

theorem except_bind_err {ε α β : Type _} (e : ε) (f : α → Except ε β) :
    ((Except.error e : Except ε α) >>= f) = Except.error e := rfl

theorem foldl_frame {σ α τ : Type _} (g : σ → τ) (f : σ → α → σ)
    (h : ∀ s a, g (f s a) = g s) :
    ∀ (l : List α) (s : σ), g (l.foldl f s) = g s := by
  intro l
  induction l with
  | nil => intro s; rfl
  | cons a l ih => intro s; rw [List.foldl_cons, ih, h]

theorem foldl_pres {σ α : Type _} (P : σ → Prop) (f : σ → α → σ)
    (h : ∀ s a, P s → P (f s a)) :
    ∀ (l : List α) (s : σ), P s → P (l.foldl f s) := by
  intro l
  induction l with
  | nil => intro s hs; exact hs
  | cons a l ih => intro s hs; rw [List.foldl_cons]; exact ih _ (h s a hs)

theorem foldlM_frame {σ α τ ε : Type _} (g : σ → τ) (f : σ → α → Except ε σ)
    (h : ∀ s a s', f s a = .ok s' → g s' = g s) :
    ∀ (l : List α) (s s' : σ), l.foldlM f s = .ok s' → g s' = g s := by
  intro l
  induction l with
  | nil =>
    intro s s' hs
    simp only [List.foldlM_nil] at hs
    cases hs
    rfl
  | cons a l ih =>
    intro s s' hs
    simp only [List.foldlM_cons] at hs
    cases hfa : f s a with
    | error e => rw [hfa, except_bind_err] at hs; cases hs
    | ok s1 =>
      rw [hfa, except_bind_ok] at hs
      rw [ih s1 s' hs, h s a s1 hfa]

theorem foldlM_pres {σ α ε : Type _} (P : σ → Prop) (f : σ → α → Except ε σ)
    (h : ∀ s a s', f s a = .ok s' → P s → P s') :
    ∀ (l : List α) (s s' : σ), l.foldlM f s = .ok s' → P s → P s' := by
  intro l
  induction l with
  | nil =>
    intro s s' hs hp
    simp only [List.foldlM_nil] at hs
    cases hs
    exact hp
  | cons a l ih =>
    intro s s' hs hp
    simp only [List.foldlM_cons] at hs
    cases hfa : f s a with
    | error e => rw [hfa, except_bind_err] at hs; cases hs
    | ok s1 =>
      rw [hfa, except_bind_ok] at hs
      exact ih s1 s' hs (h s a s1 hfa hp)

theorem foldlM_appends {σ α β ε : Type _} (g : σ → List β)
    (f : σ → α → Except ε σ)
    (h : ∀ s a s', f s a = .ok s' → ∃ t, g s' = g s ++ t) :
    ∀ (l : List α) (s s' : σ), l.foldlM f s = .ok s' → ∃ t, g s' = g s ++ t := by
  intro l
  induction l with
  | nil =>
    intro s s' hs
    simp only [List.foldlM_nil] at hs
    cases hs
    exact ⟨[], by simp⟩
  | cons a l ih =>
    intro s s' hs
    simp only [List.foldlM_cons] at hs
    cases hfa : f s a with
    | error e => rw [hfa, except_bind_err] at hs; cases hs
    | ok s1 =>
      rw [hfa, except_bind_ok] at hs
      obtain ⟨t1, ht1⟩ := h s a s1 hfa
      obtain ⟨t2, ht2⟩ := ih s1 s' hs
      exact ⟨t1 ++ t2, by rw [ht2, ht1, List.append_assoc]⟩

/-!  Frame lemmas: which tables each stage leaves untouched.  `tables5` is
the tuple of tables tracked by the invariants below. -/

def tables5 (st : State) :
    List OrderItemRow × List ActivityRow × List SellerProductRow ×
      List NewsletterRow × List FavoriteRow :=
  (st.orderItems, st.productActivities, st.sellerProducts,
   st.newsletters, st.favorites)

theorem setPassword_tables5 (st : State) (u : Nat) (p : String) :
    tables5 (setPassword st u p) = tables5 st := rfl

theorem getOrCreateAdmin_tables5 (st : State) :
    tables5 (getOrCreateAdmin st).1 = tables5 st := by
  unfold getOrCreateAdmin
  split <;> rfl

theorem seedAdmin_tables5 (st : State) :
    tables5 (seedAdmin st).1 = tables5 st := by
  simp only [seedAdmin]
  split <;> simp only [setPassword_tables5, getOrCreateAdmin_tables5]

theorem getOrCreateUser_tables5 (st : State) (a b : String) :
    tables5 (getOrCreateUser st a b).1 = tables5 st := by
  unfold getOrCreateUser
  split <;> rfl

theorem seedUser_tables5 (st : State) (a b p : String) :
    tables5 (seedUser st a b p).1 = tables5 st := by
  simp only [seedUser]
  split <;> simp only [setPassword_tables5, getOrCreateUser_tables5]

theorem createProfile_tables5 (st : State) (u : UserRow) (a b c : String) :
    tables5 (createProfile st u a b c) = tables5 st := by
  unfold createProfile
  split <;> rfl

theorem createUsers_tables5 (c : Sd) :
    tables5 (createUsers c).1.st = tables5 c.st := by
  simp only [createUsers]
  simp only [createProfile_tables5, seedUser_tables5, seedAdmin_tables5]

theorem getOrCreateRegion_tables5 (st : State) (a b c d e : String) :
    tables5 (getOrCreateRegion st a b c d e).1 = tables5 st := by
  unfold getOrCreateRegion
  split <;> rfl

theorem regionStep_tables5 (x : Sd × List RegionRow) (e : String × String) :
    tables5 (regionStep x e).1.st = tables5 x.1.st := by
  simp only [regionStep]
  exact getOrCreateRegion_tables5 _ _ _ _ _ _

theorem createRegions_tables5 (c : Sd) :
    tables5 (createRegions c).1.st = tables5 c.st := by
  unfold createRegions
  exact foldl_frame (fun x => tables5 x.1.st) regionStep
    (fun s a => regionStep_tables5 s a) _ _

theorem getOrCreateCategory_tables5 (st : State) (a b c d : String) :
    tables5 (getOrCreateCategory st a b c d).1 = tables5 st := by
  unfold getOrCreateCategory
  split <;> rfl

theorem categoryStep_tables5 (x : Sd × List CategoryRow) (e : String × String) :
    tables5 (categoryStep x e).1.st = tables5 x.1.st := by
  simp only [categoryStep]
  exact getOrCreateCategory_tables5 _ _ _ _ _

theorem createCategories_tables5 (c : Sd) :
    tables5 (createCategories c).1.st = tables5 c.st := by
  unfold createCategories
  exact foldl_frame (fun x => tables5 x.1.st) categoryStep
    (fun s a => categoryStep_tables5 s a) _ _

theorem getOrCreateArtisan_tables5 (st : State) (a : String) (e : ArtisanEntry) :
    tables5 (getOrCreateArtisan st a e).1 = tables5 st := by
  unfold getOrCreateArtisan
  split <;> rfl

theorem artisanStep_tables5 (x : Sd × List ArtisanRow) (e : ArtisanEntry) :
    tables5 (artisanStep x e).1.st = tables5 x.1.st := by
  simp only [artisanStep]
  exact getOrCreateArtisan_tables5 _ _ _

theorem createArtisans_tables5 (c : Sd) (regs : List RegionRow) :
    tables5 (createArtisans c regs).1.st = tables5 c.st := by
  unfold createArtisans
  exact foldl_frame (fun x => tables5 x.1.st) artisanStep
    (fun s a => artisanStep_tables5 s a) _ _

theorem getOrCreateSeller_tables5 (st : State) (e : SellerEntry) (r : Nat) :
    tables5 (getOrCreateSeller st e r).1 = tables5 st := by
  unfold getOrCreateSeller
  split <;> rfl

theorem sellerStep_tables5 (x : Sd × List SellerRow) (e : SellerEntry) :
    tables5 (sellerStep x e).1.st = tables5 x.1.st := by
  simp only [sellerStep]
  exact getOrCreateSeller_tables5 _ _ _

theorem createSellers_tables5 (c : Sd) (uc : UsersCtx) (regs : List RegionRow) :
    tables5 (createSellers c uc regs).1.st = tables5 c.st := by
  unfold createSellers
  exact foldl_frame (fun x => tables5 x.1.st) sellerStep
    (fun s a => sellerStep_tables5 s a) _ _

theorem getOrCreateProduct_tables5 (st : State) (a : String) (e : ProductEntry)
    (x y : Nat) : tables5 (getOrCreateProduct st a e x y).1 = tables5 st := by
  unfold getOrCreateProduct
  split <;> rfl

theorem productStep_tables5 (x : Sd × List ProductRow) (e : ProductEntry) :
    tables5 (productStep x e).1.st = tables5 x.1.st := by
  simp only [productStep]
  exact getOrCreateProduct_tables5 _ _ _ _ _

theorem sellerUpdateStep_tables5 (c : Sd) (s : SellerRow) :
    tables5 (sellerUpdateStep c s).st = tables5 c.st := rfl

theorem createProducts_tables5 (c : Sd) (cats : List CategoryRow)
    (regs : List RegionRow) (arts : List ArtisanRow) (sells : List SellerRow) :
    tables5 (createProducts c cats regs arts sells).1.st = tables5 c.st := by
  unfold createProducts
  have h1 := foldl_frame (fun x : Sd => tables5 x.st) sellerUpdateStep
    (fun s a => sellerUpdateStep_tables5 s a) sells
    ((productEntries cats regs arts sells).foldl productStep
      ({ c with tr := c.tr ++ ["products"] }, [])).1
  have h2 := foldl_frame (fun x : Sd × List ProductRow => tables5 x.1.st)
    productStep (fun s a => productStep_tables5 s a)
    (productEntries cats regs arts sells)
    ({ c with tr := c.tr ++ ["products"] }, [])
  exact h1.trans h2

theorem getOrCreateStory_tables5 (st : State) (a : String) (e : StoryEntry) :
    tables5 (getOrCreateStory st a e) = tables5 st := by
  unfold getOrCreateStory
  split <;> rfl

theorem storyStep_tables5 (c : Sd) (e : StoryEntry) :
    tables5 (storyStep c e).st = tables5 c.st := by
  simp only [storyStep]
  exact getOrCreateStory_tables5 _ _ _

theorem createStories_tables5 (c : Sd) (regs : List RegionRow) :
    tables5 (createStories c regs).st = tables5 c.st := by
  unfold createStories
  exact foldl_frame (fun x : Sd => tables5 x.st) storyStep
    (fun s a => storyStep_tables5 s a) _ _

theorem seedStoryPost_tables5 (st : State) (u : UserRow) (a : String) :
    tables5 (seedStoryPost st u a) = tables5 st := by
  unfold seedStoryPost
  split <;> rfl

theorem storyPostStep_tables5 (c : Sd) (e : UserRow × String) :
    tables5 (storyPostStep c e).st = tables5 c.st := by
  simp only [storyPostStep]
  exact seedStoryPost_tables5 _ _ _

theorem createStoryPosts_tables5 (c : Sd) (uc : UsersCtx) :
    tables5 (createStoryPosts c uc).st = tables5 c.st := by
  unfold createStoryPosts
  exact foldl_frame (fun x : Sd => tables5 x.st) storyPostStep
    (fun s a => storyPostStep_tables5 s a) _ _

theorem getOrCreateGallery_tables5 (st : State) (e : GalleryEntry) :
    tables5 (getOrCreateGallery st e) = tables5 st := by
  unfold getOrCreateGallery
  split <;> rfl

theorem galleryStep_tables5 (c : Sd) (e : GalleryEntry) :
    tables5 (galleryStep c e).st = tables5 c.st := by
  simp only [galleryStep]
  exact getOrCreateGallery_tables5 _ _

theorem createGallery_tables5 (c : Sd) (arts : List ArtisanRow)
    (prods : List ProductRow) (regs : List RegionRow) :
    tables5 (createGallery c arts prods regs).st = tables5 c.st := by
  unfold createGallery
  exact foldl_frame (fun x : Sd => tables5 x.st) galleryStep
    (fun s a => galleryStep_tables5 s a) _ _

/-!  Component extractors for `tables5` equalities. -/

theorem tables5_orderItems {s t : State} (h : tables5 s = tables5 t) :
    s.orderItems = t.orderItems := congrArg (fun x => x.1) h

theorem tables5_activities {s t : State} (h : tables5 s = tables5 t) :
    s.productActivities = t.productActivities := congrArg (fun x => x.2.1) h

theorem tables5_sellerProducts {s t : State} (h : tables5 s = tables5 t) :
    s.sellerProducts = t.sellerProducts := congrArg (fun x => x.2.2.1) h

theorem tables5_newsletters {s t : State} (h : tables5 s = tables5 t) :
    s.newsletters = t.newsletters := congrArg (fun x => x.2.2.2.1) h

theorem tables5_favorites {s t : State} (h : tables5 s = tables5 t) :
    s.favorites = t.favorites := congrArg (fun x => x.2.2.2.2) h

/-!  Lemmas about `findRow`, `List.any` and `distinctBy`. -/

theorem findRow_eq_none {p : α → Bool} :
    ∀ {l : List α}, findRow p l = none → ∀ a ∈ l, p a = false := by
  intro l
  induction l with
  | nil => intro _ a ha; cases ha
  | cons x l ih =>
    intro h a ha
    rw [findRow] at h
    by_cases hx : p x = true
    · rw [if_pos hx] at h; cases h
    · rw [if_neg hx] at h
      rcases List.mem_cons.mp ha with rfl | ha'
      · exact Bool.eq_false_iff.mpr hx
      · exact ih h a ha'

theorem any_false_all {p : α → Bool} {l : List α} (h : l.any p = false) :
    ∀ a ∈ l, p a = false := by
  intro a ha
  by_cases hp : p a = true
  · exact absurd (List.any_eq_true.mpr ⟨a, ha, hp⟩) (by simp [h])
  · exact Bool.eq_false_iff.mpr hp

theorem all_of_forall {p : α → Bool} {l : List α}
    (h : ∀ a ∈ l, p a = true) : l.all p = true :=
  List.all_eq_true.mpr h

theorem distinctBy_append_one (f : α → α → Bool) (l : List α) (b : α) :
    distinctBy f (l ++ [b]) = true ↔
      (distinctBy f l = true ∧ ∀ a ∈ l, f a b = true) := by
  induction l with
  | nil => simp [distinctBy]
  | cons x l ih =>
    simp only [List.cons_append, distinctBy, List.append_eq, List.all_append,
      Bool.and_eq_true, ih]
    constructor
    · rintro ⟨⟨h1, h2⟩, h3, h4⟩
      have hxb : f x b = true := by simpa using h2
      refine ⟨⟨h1, h3⟩, ?_⟩
      intro a ha
      rcases List.mem_cons.mp ha with rfl | ha'
      · exact hxb
      · exact h4 a ha'
    · rintro ⟨⟨h1, h3⟩, h4⟩
      refine ⟨⟨h1, by simpa using h4 x (List.mem_cons_self x l)⟩, h3, ?_⟩
      intro a ha
      exact h4 a (List.mem_cons_of_mem x ha)

theorem all_filter_of_all {p q : α → Bool} {l : List α}
    (h : l.all q = true) : (l.filter p).all q = true := by
  rw [List.all_eq_true] at h ⊢
  intro a ha
  exact h a (List.mem_of_mem_filter ha)

theorem distinctBy_filter (f : α → α → Bool) (p : α → Bool) :
    ∀ {l : List α}, distinctBy f l = true → distinctBy f (l.filter p) = true := by
  intro l
  induction l with
  | nil => intro h; exact h
  | cons x l ih =>
    intro h
    rw [distinctBy, Bool.and_eq_true] at h
    by_cases hx : p x = true
    · rw [List.filter_cons_of_pos hx, distinctBy, Bool.and_eq_true]
      exact ⟨all_filter_of_all h.1, ih h.2⟩
    · rw [List.filter_cons_of_neg (by simp [Bool.eq_false_iff.mpr hx])]
      exact ih h.2

theorem distinctBy_rel {f : α → α → Bool} :
    ∀ {l : List α}, distinctBy f l = true → ∀ a ∈ l, ∀ b ∈ l, a ≠ b →
      f a b = true ∨ f b a = true := by
  intro l
  induction l with
  | nil => intro _ a ha; cases ha
  | cons x l ih =>
    intro h a ha b hb hab
    rw [distinctBy, Bool.and_eq_true, List.all_eq_true] at h
    rcases List.mem_cons.mp ha with rfl | ha' <;>
      rcases List.mem_cons.mp hb with rfl | hb'
    · exact absurd rfl hab
    · exact Or.inl (h.1 b hb')
    · exact Or.inr (h.1 a ha')
    · exact ih h.2 a ha' b hb' hab

/-!  Command._create_orders: frame plus append-only order items. -/

def tables4oi (st : State) :
    List ActivityRow × List SellerProductRow × List NewsletterRow ×
      List FavoriteRow :=
  (st.productActivities, st.sellerProducts, st.newsletters, st.favorites)

theorem getOrCreateOrder_tables5 (st : State) (u : Nat) (a : String)
    (t : Money) (d : String) : tables5 (getOrCreateOrder st u a t d).1 = tables5 st := by
  unfold getOrCreateOrder
  split <;> rfl

theorem getOrCreateOrderItem_tables4oi (st : State) (o p : Nat) (q : Int)
    (m : Money) : tables4oi (getOrCreateOrderItem st o p q m) = tables4oi st := by
  unfold getOrCreateOrderItem
  split <;> rfl

theorem getOrCreateOrderItem_appends (st : State) (o p : Nat) (q : Int)
    (m : Money) :
    ∃ t, (getOrCreateOrderItem st o p q m).orderItems = st.orderItems ++ t := by
  unfold getOrCreateOrderItem
  split
  · exact ⟨[], by simp⟩
  · exact ⟨_, rfl⟩

theorem tables5_tables4oi {s t : State} (h : tables5 s = tables5 t) :
    tables4oi s = tables4oi t := by
  have h1 := tables5_activities h
  have h2 := tables5_sellerProducts h
  have h3 := tables5_newsletters h
  have h4 := tables5_favorites h
  unfold tables4oi
  rw [h1, h2, h3, h4]

theorem createOrders_tables4oi (c : Sd) (uc : UsersCtx)
    (prods : List ProductRow) :
    tables4oi (createOrders c uc prods).st = tables4oi c.st := by
  simp only [createOrders]
  rw [getOrCreateOrderItem_tables4oi, getOrCreateOrderItem_tables4oi,
    getOrCreateOrderItem_tables4oi, tables5_tables4oi (getOrCreateOrder_tables5 _ _ _ _ _),
    tables5_tables4oi (getOrCreateOrder_tables5 _ _ _ _ _)]

theorem createOrders_orderItems (c : Sd) (uc : UsersCtx)
    (prods : List ProductRow) :
    ∃ t, (createOrders c uc prods).st.orderItems = c.st.orderItems ++ t := by
  simp only [createOrders]
  obtain ⟨t3, h3⟩ := getOrCreateOrderItem_appends
    (getOrCreateOrderItem (getOrCreateOrderItem
      (getOrCreateOrder (getOrCreateOrder c.st uc.buyer1.id "delivered" 439800
        "Jaipur Heritage Street, 302001").1 uc.buyer2.id "processing" 279900
        "Ahmedabad Craft Lane, 380001").1
      (getOrCreateOrder c.st uc.buyer1.id "delivered" 439800
        "Jaipur Heritage Street, 302001").2.id
      (prods.getD 0 dfltProduct).id 1 (prods.getD 0 dfltProduct).price)
      (getOrCreateOrder c.st uc.buyer1.id "delivered" 439800
        "Jaipur Heritage Street, 302001").2.id
      (prods.getD 1 dfltProduct).id 1 (prods.getD 1 dfltProduct).price)
    _ _ _ _
  obtain ⟨t2, h2⟩ := getOrCreateOrderItem_appends
    (getOrCreateOrderItem
      (getOrCreateOrder (getOrCreateOrder c.st uc.buyer1.id "delivered" 439800
        "Jaipur Heritage Street, 302001").1 uc.buyer2.id "processing" 279900
        "Ahmedabad Craft Lane, 380001").1
      (getOrCreateOrder c.st uc.buyer1.id "delivered" 439800
        "Jaipur Heritage Street, 302001").2.id
      (prods.getD 0 dfltProduct).id 1 (prods.getD 0 dfltProduct).price)
    _ _ _ _
  obtain ⟨t1, h1⟩ := getOrCreateOrderItem_appends
    (getOrCreateOrder (getOrCreateOrder c.st uc.buyer1.id "delivered" 439800
      "Jaipur Heritage Street, 302001").1 uc.buyer2.id "processing" 279900
      "Ahmedabad Craft Lane, 380001").1
    _ _ _ _
  refine ⟨t1 ++ t2 ++ t3, ?_⟩
  rw [h3, h2, h1,
    tables5_orderItems (getOrCreateOrder_tables5 _ _ _ _ _),
    tables5_orderItems (getOrCreateOrder_tables5 _ _ _ _ _)]
  simp [List.append_assoc]

/-!  Command._create_seller_products: frame, and preservation of the
SellerProduct uniqueness constraints. -/

def tables4sp (st : State) :
    List OrderItemRow × List ActivityRow × List NewsletterRow ×
      List FavoriteRow :=
  (st.orderItems, st.productActivities, st.newsletters, st.favorites)

theorem spStep_tables4sp (c : Sd) (p : ProductRow) (c' : Sd)
    (h : spStep c p = .ok c') : tables4sp c'.st = tables4sp c.st := by
  simp only [spStep] at h
  split at h
  · cases h
  · split at h
    · cases h; rfl
    · split at h
      · cases h
      · cases h; rfl

theorem spStep_spInv (c : Sd) (p : ProductRow) (c' : Sd)
    (h : spStep c p = .ok c') (hi : spInv c.st) : spInv c'.st := by
  simp only [spStep] at h
  split at h
  · cases h
  · rename_i sid hsid
    split at h
    · cases h; exact hi
    · rename_i hfind
      split at h
      · cases h
      · rename_i hany
        cases h
        have hany' : c.st.sellerProducts.any
            (fun r => r.sellerSku ==
              upper (takeChars p.slug 10) ++ "-" ++
                natToStr (randint 1000 9999 c.rng).1) = false :=
          Bool.eq_false_iff.mpr hany
        unfold spInv at hi ⊢
        rw [distinctBy_append_one]
        refine ⟨hi, ?_⟩
        intro a ha
        have h1 := findRow_eq_none hfind a ha
        have h2 := any_false_all hany' a ha
        simp only [spOkB]
        simp only at h1 h2
        simp [h1, h2]

theorem createSellerProducts_tables4sp (c : Sd) (prods : List ProductRow)
    (c' : Sd) (h : createSellerProducts c prods = .ok c') :
    tables4sp c'.st = tables4sp c.st := by
  unfold createSellerProducts at h
  exact foldlM_frame (fun x => tables4sp x.st) spStep
    (fun s a s' hs => spStep_tables4sp s a s' hs) prods _ c' h

theorem createSellerProducts_spInv (c : Sd) (prods : List ProductRow)
    (c' : Sd) (h : createSellerProducts c prods = .ok c') (hi : spInv c.st) :
    spInv c'.st := by
  unfold createSellerProducts at h
  exact foldlM_pres (fun x => spInv x.st) spStep
    (fun s a s' hs => spStep_spInv s a s' hs) prods _ c' h hi

/-!  Command._create_product_activity: frame, and append-only activity
rows. -/

def tables4act (st : State) :
    List OrderItemRow × List SellerProductRow × List NewsletterRow ×
      List FavoriteRow :=
  (st.orderItems, st.sellerProducts, st.newsletters, st.favorites)

theorem actInner_tables4act (uc : UsersCtx) (p : ProductRow) (c c' : Sd)
    (h : actInner uc p c = .ok c') : tables4act c'.st = tables4act c.st := by
  simp only [actInner] at h
  split at h
  · cases h
  · cases h; rfl

theorem actInner_appends (uc : UsersCtx) (p : ProductRow) (c c' : Sd)
    (h : actInner uc p c = .ok c') :
    ∃ t, c'.st.productActivities = c.st.productActivities ++ t := by
  simp only [actInner] at h
  split at h
  · cases h
  · cases h; exact ⟨_, rfl⟩

theorem actProductStep_tables4act (uc : UsersCtx) (c : Sd) (p : ProductRow)
    (c' : Sd) (h : actProductStep uc c p = .ok c') :
    tables4act c'.st = tables4act c.st := by
  unfold actProductStep at h
  exact foldlM_frame (fun x => tables4act x.st) _
    (fun s a s' hs => actInner_tables4act uc p s s' hs) _ _ c' h

theorem actProductStep_appends (uc : UsersCtx) (c : Sd) (p : ProductRow)
    (c' : Sd) (h : actProductStep uc c p = .ok c') :
    ∃ t, c'.st.productActivities = c.st.productActivities ++ t := by
  unfold actProductStep at h
  exact foldlM_appends (fun x => x.st.productActivities) _
    (fun s a s' hs => actInner_appends uc p s s' hs) _ _ c' h

theorem createActivity_tables4act (c : Sd) (prods : List ProductRow)
    (uc : UsersCtx) (c' : Sd) (h : createActivity c prods uc = .ok c') :
    tables4act c'.st = tables4act c.st := by
  unfold createActivity at h
  exact foldlM_frame (fun x => tables4act x.st) (actProductStep uc)
    (fun s a s' hs => actProductStep_tables4act uc s a s' hs) prods _ c' h

theorem createActivity_appends (c : Sd) (prods : List ProductRow)
    (uc : UsersCtx) (c' : Sd) (h : createActivity c prods uc = .ok c') :
    ∃ t, c'.st.productActivities = c.st.productActivities ++ t := by
  unfold createActivity at h
  exact foldlM_appends (fun x => x.st.productActivities) (actProductStep uc)
    (fun s a s' hs => actProductStep_appends uc s a s' hs) prods _ c' h

/-!  Command._create_newsletters: frame, and preservation of the unique
email constraint. -/

def tables4nl (st : State) :
    List OrderItemRow × List ActivityRow × List SellerProductRow ×
      List FavoriteRow :=
  (st.orderItems, st.productActivities, st.sellerProducts, st.favorites)

theorem getOrCreateNewsletter_tables4nl (st : State) (e : String) :
    tables4nl (getOrCreateNewsletter st e) = tables4nl st := by
  unfold getOrCreateNewsletter
  split <;> rfl

theorem createNewsletters_tables4nl (c : Sd) (uc : UsersCtx) :
    tables4nl (createNewsletters c uc).st = tables4nl c.st := by
  simp only [createNewsletters]
  rw [getOrCreateNewsletter_tables4nl, getOrCreateNewsletter_tables4nl]

theorem getOrCreateNewsletter_nlInv (st : State) (e : String)
    (hi : nlInv st) : nlInv (getOrCreateNewsletter st e) := by
  unfold getOrCreateNewsletter
  split
  · exact hi
  · rename_i hfind
    unfold nlInv at hi ⊢
    simp only
    rw [distinctBy_append_one]
    refine ⟨hi, ?_⟩
    intro a ha
    have h1 := findRow_eq_none hfind a ha
    simp only at h1
    simp [h1]

theorem createNewsletters_nlInv (c : Sd) (uc : UsersCtx)
    (hi : nlInv c.st) : nlInv (createNewsletters c uc).st := by
  simp only [createNewsletters]
  exact getOrCreateNewsletter_nlInv _ _ (getOrCreateNewsletter_nlInv _ _ hi)

/-!  Component extractors for the four-table tuples. -/

theorem tables4oi_activities {s t : State} (h : tables4oi s = tables4oi t) :
    s.productActivities = t.productActivities := congrArg (fun x => x.1) h

theorem tables4oi_sellerProducts {s t : State} (h : tables4oi s = tables4oi t) :
    s.sellerProducts = t.sellerProducts := congrArg (fun x => x.2.1) h

theorem tables4oi_newsletters {s t : State} (h : tables4oi s = tables4oi t) :
    s.newsletters = t.newsletters := congrArg (fun x => x.2.2.1) h

theorem tables4oi_favorites {s t : State} (h : tables4oi s = tables4oi t) :
    s.favorites = t.favorites := congrArg (fun x => x.2.2.2) h

theorem tables4sp_orderItems {s t : State} (h : tables4sp s = tables4sp t) :
    s.orderItems = t.orderItems := congrArg (fun x => x.1) h

theorem tables4sp_activities {s t : State} (h : tables4sp s = tables4sp t) :
    s.productActivities = t.productActivities := congrArg (fun x => x.2.1) h

theorem tables4sp_newsletters {s t : State} (h : tables4sp s = tables4sp t) :
    s.newsletters = t.newsletters := congrArg (fun x => x.2.2.1) h

theorem tables4sp_favorites {s t : State} (h : tables4sp s = tables4sp t) :
    s.favorites = t.favorites := congrArg (fun x => x.2.2.2) h

theorem tables4act_orderItems {s t : State} (h : tables4act s = tables4act t) :
    s.orderItems = t.orderItems := congrArg (fun x => x.1) h

theorem tables4act_sellerProducts {s t : State} (h : tables4act s = tables4act t) :
    s.sellerProducts = t.sellerProducts := congrArg (fun x => x.2.1) h

theorem tables4act_newsletters {s t : State} (h : tables4act s = tables4act t) :
    s.newsletters = t.newsletters := congrArg (fun x => x.2.2.1) h

theorem tables4act_favorites {s t : State} (h : tables4act s = tables4act t) :
    s.favorites = t.favorites := congrArg (fun x => x.2.2.2) h

theorem tables4nl_orderItems {s t : State} (h : tables4nl s = tables4nl t) :
    s.orderItems = t.orderItems := congrArg (fun x => x.1) h

theorem tables4nl_activities {s t : State} (h : tables4nl s = tables4nl t) :
    s.productActivities = t.productActivities := congrArg (fun x => x.2.1) h

theorem tables4nl_sellerProducts {s t : State} (h : tables4nl s = tables4nl t) :
    s.sellerProducts = t.sellerProducts := congrArg (fun x => x.2.2.1) h

theorem tables4nl_favorites {s t : State} (h : tables4nl s = tables4nl t) :
    s.favorites = t.favorites := congrArg (fun x => x.2.2.2) h

/-!  Trace lemmas: each stage appends exactly its own name. -/

theorem createUsers_tr (c : Sd) : (createUsers c).1.tr = c.tr ++ ["users"] := rfl

theorem regionStep_tr (x : Sd × List RegionRow) (e : String × String) :
    (regionStep x e).1.tr = x.1.tr := rfl

theorem createRegions_tr (c : Sd) :
    (createRegions c).1.tr = c.tr ++ ["regions"] := by
  unfold createRegions
  exact foldl_frame (fun x => x.1.tr) regionStep
    (fun s a => regionStep_tr s a) _ _

theorem categoryStep_tr (x : Sd × List CategoryRow) (e : String × String) :
    (categoryStep x e).1.tr = x.1.tr := rfl

theorem createCategories_tr (c : Sd) :
    (createCategories c).1.tr = c.tr ++ ["categories"] := by
  unfold createCategories
  exact foldl_frame (fun x => x.1.tr) categoryStep
    (fun s a => categoryStep_tr s a) _ _

theorem artisanStep_tr (x : Sd × List ArtisanRow) (e : ArtisanEntry) :
    (artisanStep x e).1.tr = x.1.tr := rfl

theorem createArtisans_tr (c : Sd) (regs : List RegionRow) :
    (createArtisans c regs).1.tr = c.tr ++ ["artisans"] := by
  unfold createArtisans
  exact foldl_frame (fun x => x.1.tr) artisanStep
    (fun s a => artisanStep_tr s a) _ _

theorem sellerStep_tr (x : Sd × List SellerRow) (e : SellerEntry) :
    (sellerStep x e).1.tr = x.1.tr := rfl

theorem createSellers_tr (c : Sd) (uc : UsersCtx) (regs : List RegionRow) :
    (createSellers c uc regs).1.tr = c.tr ++ ["sellers"] := by
  unfold createSellers
  exact foldl_frame (fun x => x.1.tr) sellerStep
    (fun s a => sellerStep_tr s a) _ _

theorem productStep_tr (x : Sd × List ProductRow) (e : ProductEntry) :
    (productStep x e).1.tr = x.1.tr := rfl

theorem sellerUpdateStep_tr (c : Sd) (s : SellerRow) :
    (sellerUpdateStep c s).tr = c.tr := rfl

theorem createProducts_tr (c : Sd) (cats : List CategoryRow)
    (regs : List RegionRow) (arts : List ArtisanRow) (sells : List SellerRow) :
    (createProducts c cats regs arts sells).1.tr = c.tr ++ ["products"] := by
  unfold createProducts
  have h1 := foldl_frame (fun x : Sd => x.tr) sellerUpdateStep
    (fun s a => sellerUpdateStep_tr s a)
    sells ((productEntries cats regs arts sells).foldl productStep
      ({ c with tr := c.tr ++ ["products"] }, [])).1
  have h2 := foldl_frame (fun x : Sd × List ProductRow => x.1.tr) productStep
    (fun s a => productStep_tr s a) (productEntries cats regs arts sells)
    ({ c with tr := c.tr ++ ["products"] }, [])
  exact h1.trans h2

theorem createSellerProducts_tr (c : Sd) (prods : List ProductRow) (c' : Sd)
    (h : createSellerProducts c prods = .ok c') :
    c'.tr = c.tr ++ ["seller_products"] := by
  unfold createSellerProducts at h
  refine (foldlM_frame (fun x : Sd => x.tr) spStep ?_ prods _ c' h)
  intro s a s' hs
  simp only [spStep] at hs
  split at hs
  · cases hs
  · split at hs
    · cases hs; rfl
    · split at hs
      · cases hs
      · cases hs; rfl

theorem storyStep_tr (c : Sd) (e : StoryEntry) : (storyStep c e).tr = c.tr := rfl

theorem createStories_tr (c : Sd) (regs : List RegionRow) :
    (createStories c regs).tr = c.tr ++ ["stories"] := by
  unfold createStories
  exact foldl_frame (fun x : Sd => x.tr) storyStep
    (fun s a => storyStep_tr s a) _ _

theorem storyPostStep_tr (c : Sd) (e : UserRow × String) :
    (storyPostStep c e).tr = c.tr := rfl

theorem createStoryPosts_tr (c : Sd) (uc : UsersCtx) :
    (createStoryPosts c uc).tr = c.tr ++ ["story_posts"] := by
  unfold createStoryPosts
  exact foldl_frame (fun x : Sd => x.tr) storyPostStep
    (fun s a => storyPostStep_tr s a) _ _

theorem galleryStep_tr (c : Sd) (e : GalleryEntry) :
    (galleryStep c e).tr = c.tr := rfl

theorem createGallery_tr (c : Sd) (arts : List ArtisanRow)
    (prods : List ProductRow) (regs : List RegionRow) :
    (createGallery c arts prods regs).tr = c.tr ++ ["gallery"] := by
  unfold createGallery
  exact foldl_frame (fun x : Sd => x.tr) galleryStep
    (fun s a => galleryStep_tr s a) _ _

theorem createOrders_tr (c : Sd) (uc : UsersCtx) (prods : List ProductRow) :
    (createOrders c uc prods).tr = c.tr ++ ["orders"] := rfl

theorem actInner_tr (uc : UsersCtx) (p : ProductRow) (c c' : Sd)
    (h : actInner uc p c = .ok c') : c'.tr = c.tr := by
  simp only [actInner] at h
  split at h
  · cases h
  · cases h; rfl

theorem createActivity_tr (c : Sd) (prods : List ProductRow) (uc : UsersCtx)
    (c' : Sd) (h : createActivity c prods uc = .ok c') :
    c'.tr = c.tr ++ ["product_activity"] := by
  unfold createActivity at h
  refine foldlM_frame (fun x : Sd => x.tr) (actProductStep uc) ?_ prods _ c' h
  intro s a s' hs
  unfold actProductStep at hs
  exact foldlM_frame (fun x : Sd => x.tr) _
    (fun s1 a1 s1' hs1 => actInner_tr uc a s1 s1' hs1) _ _ s' hs

theorem createNewsletters_tr (c : Sd) (uc : UsersCtx) :
    (createNewsletters c uc).tr = c.tr ++ ["newsletters"] := rfl

/-!  What _reset_data does to the tables the invariants track. -/

theorem resetData_orderItems (st : State) : (resetData st).orderItems = [] := rfl

theorem resetData_productActivities (st : State) :
    (resetData st).productActivities = [] := rfl

theorem resetData_sellerProducts (st : State) :
    (resetData st).sellerProducts = [] := rfl

theorem resetData_newsletters (st : State) :
    (resetData st).newsletters = [] := rfl

theorem resetData_favorites_shape (st : State) :
    ∃ p q, (resetData st).favorites = (st.favorites.filter p).filter q :=
  ⟨_, _, rfl⟩

/-!  Composed lemmas for the seed pipeline. -/

theorem seedPre_tables5 (c0 : Sd) : tables5 (seedPre c0).c.st = tables5 c0.st := by
  simp only [seedPre]
  rw [createProducts_tables5, createSellers_tables5, createArtisans_tables5,
    createCategories_tables5, createRegions_tables5, createUsers_tables5]

theorem seedPre_tr (c0 : Sd) :
    (seedPre c0).c.tr = c0.tr ++
      ["users", "regions", "categories", "artisans", "sellers", "products"] := by
  simp only [seedPre]
  rw [createProducts_tr, createSellers_tr, createArtisans_tr,
    createCategories_tr, createRegions_tr, createUsers_tr]
  simp

theorem seedMid_tables4oi (c1 : Sd) (p : PreOut) :
    tables4oi (seedMid c1 p).st = tables4oi c1.st := by
  unfold seedMid
  rw [createOrders_tables4oi, tables5_tables4oi (createGallery_tables5 _ _ _ _),
    tables5_tables4oi (createStoryPosts_tables5 _ _),
    tables5_tables4oi (createStories_tables5 _ _)]

theorem seedMid_orderItems (c1 : Sd) (p : PreOut) :
    ∃ t, (seedMid c1 p).st.orderItems = c1.st.orderItems ++ t := by
  unfold seedMid
  obtain ⟨t, ht⟩ := createOrders_orderItems
    (createGallery (createStoryPosts (createStories c1 p.regs) p.uc)
      p.arts p.prods p.regs) p.uc p.prods
  refine ⟨t, ?_⟩
  rw [ht, tables5_orderItems (createGallery_tables5 _ _ _ _),
    tables5_orderItems (createStoryPosts_tables5 _ _),
    tables5_orderItems (createStories_tables5 _ _)]

theorem seedMid_tr (c1 : Sd) (p : PreOut) :
    (seedMid c1 p).tr = c1.tr ++ ["stories", "story_posts", "gallery", "orders"] := by
  unfold seedMid
  rw [createOrders_tr, createGallery_tr, createStoryPosts_tr, createStories_tr]
  simp

theorem spInv_of_eq {s t : State} (e : s.sellerProducts = t.sellerProducts)
    (hi : spInv t) : spInv s := by
  unfold spInv at hi ⊢
  rw [e]
  exact hi

theorem nlInv_of_eq {s t : State} (e : s.newsletters = t.newsletters)
    (hi : nlInv t) : nlInv s := by
  unfold nlInv at hi ⊢
  rw [e]
  exact hi

theorem favInv_of_eq {s t : State} (e : s.favorites = t.favorites)
    (hi : favInv t) : favInv s := by
  unfold favInv at hi ⊢
  rw [e]
  exact hi

/-!  Facts about every successful run of the fallible tail, for an arbitrary
prefix outcome `pre`. -/

theorem seedFinish_ok_orderItems (pre : PreOut) (fsv : FS) (out : SeedOut)
    (h : seedFinish pre fsv = .ok out) :
    ∃ t, out.state.orderItems = pre.c.st.orderItems ++ t := by
  simp only [seedFinish] at h
  split at h
  · cases h
  · rename_i c1 hc1
    split at h
    · cases h
    · rename_i c6 hc6
      cases h
      obtain ⟨t1, e1⟩ := seedMid_orderItems c1 pre
      refine ⟨t1, ?_⟩
      rw [tables4nl_orderItems (createNewsletters_tables4nl c6 pre.uc),
        tables4act_orderItems (createActivity_tables4act _ _ _ _ hc6), e1,
        tables4sp_orderItems (createSellerProducts_tables4sp _ _ _ hc1)]

theorem seedFinish_ok_activities (pre : PreOut) (fsv : FS) (out : SeedOut)
    (h : seedFinish pre fsv = .ok out) :
    ∃ t, out.state.productActivities = pre.c.st.productActivities ++ t := by
  simp only [seedFinish] at h
  split at h
  · cases h
  · rename_i c1 hc1
    split at h
    · cases h
    · rename_i c6 hc6
      cases h
      obtain ⟨t6, e6⟩ := createActivity_appends _ _ _ _ hc6
      refine ⟨t6, ?_⟩
      rw [tables4nl_activities (createNewsletters_tables4nl c6 pre.uc), e6,
        tables4oi_activities (seedMid_tables4oi c1 pre),
        tables4sp_activities (createSellerProducts_tables4sp _ _ _ hc1)]

theorem seedFinish_ok_spInv (pre : PreOut) (fsv : FS) (out : SeedOut)
    (h : seedFinish pre fsv = .ok out) (hi : spInv pre.c.st) :
    spInv out.state := by
  simp only [seedFinish] at h
  split at h
  · cases h
  · rename_i c1 hc1
    split at h
    · cases h
    · rename_i c6 hc6
      cases h
      have h2 := createSellerProducts_spInv _ _ _ hc1 hi
      have h3 := spInv_of_eq (tables4oi_sellerProducts (seedMid_tables4oi c1 pre)) h2
      have h4 := spInv_of_eq (tables4act_sellerProducts
        (createActivity_tables4act _ _ _ _ hc6)) h3
      exact spInv_of_eq (tables4nl_sellerProducts
        (createNewsletters_tables4nl c6 pre.uc)) h4

theorem seedFinish_ok_nlInv (pre : PreOut) (fsv : FS) (out : SeedOut)
    (h : seedFinish pre fsv = .ok out) (hi : nlInv pre.c.st) :
    nlInv out.state := by
  simp only [seedFinish] at h
  split at h
  · cases h
  · rename_i c1 hc1
    split at h
    · cases h
    · rename_i c6 hc6
      cases h
      have h2 := nlInv_of_eq (tables4sp_newsletters
        (createSellerProducts_tables4sp _ _ _ hc1)) hi
      have h3 := nlInv_of_eq (tables4oi_newsletters (seedMid_tables4oi c1 pre)) h2
      have h4 := nlInv_of_eq (tables4act_newsletters
        (createActivity_tables4act _ _ _ _ hc6)) h3
      exact createNewsletters_nlInv c6 pre.uc h4

theorem seedFinish_ok_favorites (pre : PreOut) (fsv : FS) (out : SeedOut)
    (h : seedFinish pre fsv = .ok out) :
    out.state.favorites = pre.c.st.favorites := by
  simp only [seedFinish] at h
  split at h
  · cases h
  · rename_i c1 hc1
    split at h
    · cases h
    · rename_i c6 hc6
      cases h
      rw [tables4nl_favorites (createNewsletters_tables4nl c6 pre.uc),
        tables4act_favorites (createActivity_tables4act _ _ _ _ hc6),
        tables4oi_favorites (seedMid_tables4oi c1 pre),
        tables4sp_favorites (createSellerProducts_tables4sp _ _ _ hc1)]

theorem seedFinish_ok_tr (pre : PreOut) (fsv : FS) (out : SeedOut)
    (h : seedFinish pre fsv = .ok out) :
    out.tr = pre.c.tr ++ ["seller_products", "stories", "story_posts",
      "gallery", "orders", "product_activity", "newsletters"] := by
  simp only [seedFinish] at h
  split at h
  · cases h
  · rename_i c1 hc1
    split at h
    · cases h
    · rename_i c6 hc6
      cases h
      rw [createNewsletters_tr, createActivity_tr _ _ _ _ hc6, seedMid_tr,
        createSellerProducts_tr _ _ _ hc1]
      simp

/-!  The same facts lifted to seedBody runs on an arbitrary starting state.
`if reset then resetData st else st` is the state after the optional reset
step. -/

theorem seedBody_ok_orderItems (reset : Bool) (st : State) (fs : FS)
    (rng : RandState) (out : SeedOut) (h : seedBody reset st fs rng = .ok out) :
    ∃ t, out.state.orderItems =
      (if reset then resetData st else st).orderItems ++ t := by
  simp only [seedBody] at h
  obtain ⟨t, ht⟩ := seedFinish_ok_orderItems _ _ _ h
  rw [tables5_orderItems (seedPre_tables5 _)] at ht
  exact ⟨t, ht⟩

theorem seedBody_ok_activities (reset : Bool) (st : State) (fs : FS)
    (rng : RandState) (out : SeedOut) (h : seedBody reset st fs rng = .ok out) :
    ∃ t, out.state.productActivities =
      (if reset then resetData st else st).productActivities ++ t := by
  simp only [seedBody] at h
  obtain ⟨t, ht⟩ := seedFinish_ok_activities _ _ _ h
  rw [tables5_activities (seedPre_tables5 _)] at ht
  exact ⟨t, ht⟩

theorem seedBody_ok_spInv (reset : Bool) (st : State) (fs : FS)
    (rng : RandState) (out : SeedOut) (h : seedBody reset st fs rng = .ok out)
    (hi : spInv (if reset then resetData st else st)) : spInv out.state := by
  simp only [seedBody] at h
  exact seedFinish_ok_spInv _ _ _ h
    (spInv_of_eq (tables5_sellerProducts (seedPre_tables5 _)) hi)

theorem seedBody_ok_nlInv (reset : Bool) (st : State) (fs : FS)
    (rng : RandState) (out : SeedOut) (h : seedBody reset st fs rng = .ok out)
    (hi : nlInv (if reset then resetData st else st)) : nlInv out.state := by
  simp only [seedBody] at h
  exact seedFinish_ok_nlInv _ _ _ h
    (nlInv_of_eq (tables5_newsletters (seedPre_tables5 _)) hi)

theorem seedBody_ok_favorites (reset : Bool) (st : State) (fs : FS)
    (rng : RandState) (out : SeedOut) (h : seedBody reset st fs rng = .ok out) :
    out.state.favorites = (if reset then resetData st else st).favorites := by
  simp only [seedBody] at h
  rw [seedFinish_ok_favorites _ _ _ h,
    tables5_favorites (seedPre_tables5 _)]

theorem seedBody_ok_tr (reset : Bool) (st : State) (fs : FS)
    (rng : RandState) (out : SeedOut) (h : seedBody reset st fs rng = .ok out) :
    out.tr = ["users", "regions", "categories", "artisans", "sellers",
      "products", "seller_products", "stories", "story_posts", "gallery",
      "orders", "product_activity", "newsletters"] := by
  simp only [seedBody] at h
  rw [seedFinish_ok_tr _ _ _ h, seedPre_tr]
  simp

/-!  How one command invocation relates to its transaction body. -/

theorem runCommand_eq_ok (reset : Bool) (st : State) (fs : FS)
    (rng : RandState) (out : SeedOut) (h : seedBody reset st fs rng = .ok out) :
    runCommand reset st fs rng =
      { state := out.state, fs := out.fs, tr := out.tr, ok := true } := by
  unfold runCommand
  rw [h]

theorem runCommand_eq_err (reset : Bool) (st : State) (fs : FS)
    (rng : RandState) (e : SeedErr) (h : seedBody reset st fs rng = .error e) :
    runCommand reset st fs rng =
      { state := st, fs := (createImages fs rng).1, tr := [], ok := false } := by
  unfold runCommand
  rw [h]

/-!  Shared concrete inputs used to exercise the theorems. -/

/-- A first seed run on an empty database and empty media directory, with
one possible interpreter RNG state. -/
def firstRun : CmdOut := runCommand false emptyState [] (cstream 0)

/-- A media directory that already holds every placeholder image. -/
def allImagePaths : FS := imageItems.map (fun it => it.1)

/-- The combined uniqueness invariants hold in every reachable state. -/
theorem reachable_invariants (st : State) (h : Reachable st) :
    spInv st ∧ nlInv st ∧ favInv st := by
  induction h with
  | base => exact ⟨rfl, rfl, rfl⟩
  | step o st' hre ih =>
    obtain ⟨hsp, hnl, hfav⟩ := ih
    cases o with
    | insertSellerProduct s p sku pr stk =>
      refine ⟨?_, ?_, ?_⟩
      · simp only [applyOp]
        split
        · exact hsp
        · rename_i hcond
          have hcond' := Bool.or_eq_false_iff.mp (Bool.eq_false_iff.mpr hcond)
          unfold spInv at hsp ⊢
          simp only
          rw [distinctBy_append_one]
          refine ⟨hsp, ?_⟩
          intro a ha
          have h1 := any_false_all hcond'.1 a ha
          have h2 := any_false_all hcond'.2 a ha
          simp only at h1 h2
          simp [spOkB, h1, h2]
      · simp only [applyOp]
        split <;> exact hnl
      · simp only [applyOp]
        split <;> exact hfav
    | insertNewsletter e =>
      refine ⟨?_, ?_, ?_⟩
      · simp only [applyOp]
        split <;> exact hsp
      · simp only [applyOp]
        split
        · exact hnl
        · rename_i hcond
          have hcond' := Bool.eq_false_iff.mpr hcond
          unfold nlInv at hnl ⊢
          simp only
          rw [distinctBy_append_one]
          refine ⟨hnl, ?_⟩
          intro a ha
          have h1 := any_false_all hcond' a ha
          simp only at h1
          simp [h1]
      · simp only [applyOp]
        split <;> exact hfav
    | insertFavorite u p =>
      refine ⟨?_, ?_, ?_⟩
      · simp only [applyOp]
        split <;> exact hsp
      · simp only [applyOp]
        split <;> exact hnl
      · simp only [applyOp]
        split
        · exact hfav
        · rename_i hcond
          have hcond' := Bool.eq_false_iff.mpr hcond
          unfold favInv at hfav ⊢
          simp only
          rw [distinctBy_append_one]
          refine ⟨hfav, ?_⟩
          intro a ha
          have h1 := any_false_all hcond' a ha
          simp only at h1
          simp [h1]
    | setProductPrice pid pr => exact ⟨hsp, hnl, hfav⟩
    | deleteCategory i => exact ⟨hsp, hnl, hfav⟩
    | deleteRegion i => exact ⟨hsp, hnl, hfav⟩
    | deleteArtisan i => exact ⟨hsp, hnl, hfav⟩
    | deleteSeller i =>
      exact ⟨distinctBy_filter _ _ hsp, hnl, hfav⟩
    | deleteProduct i =>
      exact ⟨distinctBy_filter _ _ hsp, hnl, distinctBy_filter _ _ hfav⟩
    | deleteUser i =>
      exact ⟨distinctBy_filter _ _ hsp, hnl, distinctBy_filter _ _ hfav⟩
    | seed r fs rng =>
      cases hb : seedBody r st' fs rng with
      | error e =>
        have he : applyOp (Op.seed r fs rng) st' = st' := by
          show (runCommand r st' fs rng).state = st'
          rw [runCommand_eq_err r st' fs rng e hb]
        rw [he]
        exact ⟨hsp, hnl, hfav⟩
      | ok out =>
        have he : applyOp (Op.seed r fs rng) st' = out.state := by
          show (runCommand r st' fs rng).state = out.state
          rw [runCommand_eq_ok r st' fs rng out hb]
        rw [he]
        have hresetSp : spInv (if r then resetData st' else st') := by
          cases r
          · exact hsp
          · unfold spInv
            rw [if_pos rfl, resetData_sellerProducts]
            rfl
        have hresetNl : nlInv (if r then resetData st' else st') := by
          cases r
          · exact hnl
          · unfold nlInv
            rw [if_pos rfl, resetData_newsletters]
            rfl
        have hresetFav : favInv (if r then resetData st' else st') := by
          cases r
          · exact hfav
          · rw [if_pos rfl]
            obtain ⟨p, q, hpq⟩ := resetData_favorites_shape st'
            unfold favInv
            rw [hpq]
            exact distinctBy_filter _ _ (distinctBy_filter _ _ hfav)
        refine ⟨seedBody_ok_spInv _ _ _ _ _ hb hresetSp,
          seedBody_ok_nlInv _ _ _ _ _ hb hresetNl, ?_⟩
        unfold favInv
        rw [seedBody_ok_favorites _ _ _ _ _ hb]
        exact hresetFav

/-!  Lemmas about dead-id lists. -/

theorem hitsAny_eq_mem (dead : List Nat) (i : Nat) :
    hitsAny dead i = true ↔ i ∈ dead := by
  simp [hitsAny, List.any_eq_true]

theorem hitsAny_filter_map {α : Type _} (l : List α) (idf : α → Nat) (t : Nat)
    (hex : ∃ a ∈ l, idf a = t) :
    ∀ x, hitsAny ((l.filter (fun c => idf c == t)).map idf) x = (x == t) := by
  intro x
  by_cases hx : x = t
  · have hmem : t ∈ (l.filter (fun c => idf c == t)).map idf := by
      obtain ⟨a, ha, hat⟩ := hex
      rw [← hat]
      exact List.mem_map_of_mem idf (List.mem_filter.mpr ⟨ha, by simp [hat]⟩)
    rw [hx]
    simp [(hitsAny_eq_mem _ _).mpr hmem]
  · have hnot : x ∉ (l.filter (fun c => idf c == t)).map idf := by
      intro hc
      obtain ⟨a, ha, hax⟩ := List.mem_map.mp hc
      have := (List.mem_filter.mp ha).2
      simp only [beq_iff_eq] at this
      exact hx (hax ▸ this)
    have hfa : hitsAny ((l.filter (fun c => idf c == t)).map idf) x = false := by
      rw [← Bool.not_eq_true, hitsAny_eq_mem]
      exact hnot
    simp [hfa, hx]

/-- C3.  Deleting the Category, Region, Artisan or Seller a Product
references sets the corresponding foreign key to null while the Product row
survives with its id; deleting a Product removes every OrderItem and every
GalleryImage that references it. -/
theorem deletion_policies (st : State) (p : ProductRow) (hp : p ∈ st.products) :
    (∀ cat ∈ st.categories, ∃ p' ∈
        (deleteCategoriesBy (fun j => j == cat.id) st).products,
      p'.id = p.id ∧
        p'.category = (if p.category = some cat.id then none else p.category)) ∧
    (∀ reg ∈ st.regions, ∃ p' ∈
        (deleteRegionsBy (fun j => j == reg.id) st).products,
      p'.id = p.id ∧
        p'.region = (if p.region = some reg.id then none else p.region)) ∧
    (∀ art ∈ st.artisans, ∃ p' ∈
        (deleteArtisansBy (fun j => j == art.id) st).products,
      p'.id = p.id ∧
        p'.artisan = (if p.artisan = some art.id then none else p.artisan)) ∧
    (∀ sel ∈ st.sellers, ∃ p' ∈
        (deleteSellersBy (fun j => j == sel.id) st).products,
      p'.id = p.id ∧
        p'.seller = (if p.seller = some sel.id then none else p.seller)) ∧
    (∀ oi ∈ st.orderItems, oi.product = p.id →
      oi ∉ (deleteProductsBy (fun j => j == p.id) st).orderItems) ∧
    (∀ g ∈ st.galleryImages, g.product = some p.id →
      g ∉ (deleteProductsBy (fun j => j == p.id) st).galleryImages) ∧
    p ∉ (deleteProductsBy (fun j => j == p.id) st).products := by
  have hpdead : hitsAny
      ((st.products.filter (fun q => q.id == p.id)).map (fun q => q.id))
      p.id = true :=
    (hitsAny_eq_mem _ _).mpr
      (List.mem_map_of_mem _ (List.mem_filter.mpr ⟨hp, by simp⟩))
  refine ⟨?_, ?_, ?_, ?_, ?_, ?_, ?_⟩
  · intro cat hcat
    have hdead := hitsAny_filter_map st.categories (fun c => c.id) cat.id
      ⟨cat, hcat, rfl⟩
    refine ⟨_, List.mem_map_of_mem _ hp, ?_, ?_⟩
    · split <;> rfl
    · rcases hc : p.category with _ | x
      · simp [hc]
      · by_cases hx : x = cat.id <;> simp [hc, hdead, hx]
  · intro reg hreg
    have hdead := hitsAny_filter_map st.regions (fun r => r.id) reg.id
      ⟨reg, hreg, rfl⟩
    refine ⟨_, List.mem_map_of_mem _ (List.mem_map_of_mem _ hp), ?_, ?_⟩
    · split
      · split <;> rfl
      · split <;> rfl
    · have key : ∀ (d2 : List Nat) (q : ProductRow),
          ((if (q.region.map (hitsAny d2)).getD false then
              { q with region := none } else q) : ProductRow).region =
            (if (q.region.map (hitsAny d2)).getD false then (none : Option Nat)
             else q.region) := by
        intro d2 q
        split <;> rfl
      have hreg1 : ∀ (d : List Nat) (q : ProductRow),
          ((if (q.artisan.map (hitsAny d)).getD false then
              { q with artisan := none } else q) : ProductRow).region =
            q.region := by
        intro d q
        split <;> rfl
      rw [key, hreg1]
      rcases hc : p.region with _ | x
      · simp [hc]
      · by_cases hx : x = reg.id <;> simp [hc, hdead, hx]
  · intro art hart
    have hdead := hitsAny_filter_map st.artisans (fun a => a.id) art.id
      ⟨art, hart, rfl⟩
    refine ⟨_, List.mem_map_of_mem _ hp, ?_, ?_⟩
    · split <;> rfl
    · rcases hc : p.artisan with _ | x
      · simp [hc]
      · by_cases hx : x = art.id <;> simp [hc, hdead, hx]
  · intro sel hsel
    have hdead := hitsAny_filter_map st.sellers (fun s => s.id) sel.id
      ⟨sel, hsel, rfl⟩
    refine ⟨_, List.mem_map_of_mem _ hp, ?_, ?_⟩
    · split <;> rfl
    · rcases hc : p.seller with _ | x
      · simp [hc]
      · by_cases hx : x = sel.id <;> simp [hc, hdead, hx]
  · intro oi hoi hprod hmem
    have := (List.mem_filter.mp hmem).2
    rw [hprod] at this
    simp [hpdead] at this
  · intro g hg hprod hmem
    have := (List.mem_filter.mp hmem).2
    rw [hprod] at this
    simp [hpdead] at this
  · intro hmem
    have := (List.mem_filter.mp hmem).2
    simp at this

/-!  Concrete rows exercising the deletion policies. -/

def c3prod : ProductRow :=
  { dfltProduct with
    id := 20, name := "P", slug := "p",
    category := some 10, region := some 11, artisan := some 12,
    seller := some 13, price := 100, image := "i" }

def c3cat : CategoryRow :=
  { id := 10, name := "C", slug := "c", description := "", image := "" }

def c3oi : OrderItemRow :=
  { id := 30, order := 40, product := 20, quantity := 1, price := 100 }

def c3gal : GalleryRow :=
  { id := 31, title := "G", image := "", description := "", artisan := none,
    product := some 20, region := none, featured := false }

def c3state : State :=
  { emptyState with
    products := [c3prod], categories := [c3cat],
    orderItems := [c3oi], galleryImages := [c3gal], nextId := 50 }

theorem deletion_policies_witness :
    c3prod ∈ c3state.products ∧ c3cat ∈ c3state.categories ∧
    (∃ p' ∈ (deleteCategoriesBy (fun j => j == c3cat.id) c3state).products,
      p'.id = c3prod.id ∧
        p'.category =
          (if c3prod.category = some c3cat.id then none else c3prod.category)) ∧
    (c3oi ∈ c3state.orderItems ∧ c3oi.product = c3prod.id ∧
      c3oi ∉ (deleteProductsBy (fun j => j == c3prod.id) c3state).orderItems) ∧
    (c3gal ∈ c3state.galleryImages ∧ c3gal.product = some c3prod.id ∧
      c3gal ∉ (deleteProductsBy (fun j => j == c3prod.id) c3state).galleryImages) ∧
    c3prod ∉ (deleteProductsBy (fun j => j == c3prod.id) c3state).products :=
  ⟨by decide, by decide,
    (deletion_policies c3state c3prod (by decide)).1 c3cat (by decide),
    ⟨by decide, by decide,
      (deletion_policies c3state c3prod (by decide)).2.2.2.2.1 c3oi
        (by decide) (by decide)⟩,
    ⟨by decide, by decide,
      (deletion_policies c3state c3prod (by decide)).2.2.2.2.2.1 c3gal
        (by decide) (by decide)⟩,
    (deletion_policies c3state c3prod (by decide)).2.2.2.2.2.2⟩

/-- C4.  OrderItem prices are snapshots: a seed run without reset only ever
appends order items, leaving every existing row (and hence its price)
untouched, and editing a Product price (the admin "Pricing" fieldset
operation) leaves the order-item table unchanged. -/
theorem orderitem_price_snapshot :
    (∀ (st : State) (fs : FS) (rng : RandState), ∃ t,
      (runCommand false st fs rng).state.orderItems = st.orderItems ++ t) ∧
    (∀ (st : State) (pid : Nat) (pr : Money),
      (applyOp (.setProductPrice pid pr) st).orderItems = st.orderItems) := by
  constructor
  · intro st fs rng
    cases hb : seedBody false st fs rng with
    | error e =>
      rw [runCommand_eq_err _ _ _ _ _ hb]
      exact ⟨[], by simp⟩
    | ok out =>
      rw [runCommand_eq_ok _ _ _ _ _ hb]
      exact seedBody_ok_orderItems false st fs rng out hb
  · intro st pid pr
    rfl

/-- C5 (amended).  ProductActivity rows are append-only across a seed run
without --reset; the --reset path deletes every ProductActivity row. -/
theorem productactivity_append_only :
    (∀ (st : State) (fs : FS) (rng : RandState), ∃ t,
      (runCommand false st fs rng).state.productActivities =
        st.productActivities ++ t) ∧
    (∀ st : State, (resetData st).productActivities = []) := by
  constructor
  · intro st fs rng
    cases hb : seedBody false st fs rng with
    | error e =>
      rw [runCommand_eq_err _ _ _ _ _ hb]
      exact ⟨[], by simp⟩
    | ok out =>
      rw [runCommand_eq_ok _ _ _ _ _ hb]
      exact seedBody_ok_activities false st fs rng out hb
  · intro st
    exact resetData_productActivities st

/-!  A pre-existing activity row, used to exhibit the reset deletion. -/

def actRow0 : ActivityRow :=
  { id := 0, seller := 1, product := 2, activityType := "view", user := none,
    detailsSource := "x", detailsRef := "y" }

def stWithAct : State :=
  { emptyState with productActivities := [actRow0], nextId := 5 }

set_option maxRecDepth 100000 in
/-- C5 (counterexample).  Running the seed command with --reset deletes an
existing ProductActivity row, so the program does delete event-log rows. -/
theorem productactivity_reset_deletes :
    actRow0 ∈ stWithAct.productActivities ∧
    (runCommand true stWithAct [] (cstream 0)).ok = true ∧
    actRow0 ∉ (runCommand true stWithAct [] (cstream 0)).state.productActivities := by
  refine ⟨by decide, by decide, by decide⟩

/-- C8.  Every run of the seed command that completes executes the
construction stages in the dependency order users, regions, categories,
artisans, sellers, products, seller-products, stories, story posts, gallery,
orders, product activity, newsletters. -/
theorem seed_stage_order (reset : Bool) (st : State) (fs : FS)
    (rng : RandState) (h : (runCommand reset st fs rng).ok = true) :
    (runCommand reset st fs rng).tr =
      ["users", "regions", "categories", "artisans", "sellers", "products",
       "seller_products", "stories", "story_posts", "gallery", "orders",
       "product_activity", "newsletters"] := by
  cases hb : seedBody reset st fs rng with
  | error e =>
    rw [runCommand_eq_err _ _ _ _ _ hb] at h
    cases h
  | ok out =>
    rw [runCommand_eq_ok _ _ _ _ _ hb]
    exact seedBody_ok_tr _ _ _ _ _ hb

set_option maxRecDepth 100000 in
theorem seed_stage_order_witness :
    (runCommand false emptyState [] (cstream 0)).ok = true ∧
    (runCommand false emptyState [] (cstream 0)).tr =
      ["users", "regions", "categories", "artisans", "sellers", "products",
       "seller_products", "stories", "story_posts", "gallery", "orders",
       "product_activity", "newsletters"] :=
  ⟨by decide, seed_stage_order false emptyState [] (cstream 0) (by decide)⟩

/-- C9.  The whole run, reset included, sits in one transaction: when the
body raises, the database is exactly the pre-run state. -/
theorem seed_atomic_rollback (reset : Bool) (st : State) (fs : FS)
    (rng : RandState) (e : SeedErr) (h : seedBody reset st fs rng = .error e) :
    (runCommand reset st fs rng).state = st := by
  rw [runCommand_eq_err _ _ _ _ _ h]

/-- A database holding a SellerProduct whose SKU collides with the first SKU
the seeder will draw from the constant-0 stream. -/
def spBad : SellerProductRow :=
  { id := 0, seller := 99, product := 98, sellerSku := "BLUE-POTTE-1000",
    sellerPrice := 0, sellerStock := 0 }

def stBad : State :=
  { emptyState with sellerProducts := [spBad], nextId := 100 }

set_option maxRecDepth 100000 in
theorem seed_atomic_rollback_witness :
    seedBody false stBad allImagePaths (cstream 0) = .error .skuTaken ∧
    (runCommand false stBad allImagePaths (cstream 0)).state = stBad :=
  ⟨rfl, seed_atomic_rollback false stBad allImagePaths (cstream 0) .skuTaken rfl⟩

/-!  The only `random.seed` call sits inside Command._color_for, which is
reached only for missing image files. -/

theorem imageFold_indep :
    ∀ (items : List (String × String)) (fs : FS) (r r' : RandState),
      (∃ it ∈ items, it.1 ∉ fs) →
      items.foldl imageStep (fs, r) = items.foldl imageStep (fs, r') := by
  intro items
  induction items with
  | nil =>
    rintro fs r r' ⟨it, hmem, -⟩
    cases hmem
  | cons a items ih =>
    rintro fs r r' ⟨it, hmem, hnot⟩
    rw [List.foldl_cons, List.foldl_cons]
    by_cases ha : a.1 ∈ fs
    · have e1 : imageStep (fs, r) a = (fs, r) := by simp [imageStep, ha]
      have e2 : imageStep (fs, r') a = (fs, r') := by simp [imageStep, ha]
      rw [e1, e2]
      apply ih
      rcases List.mem_cons.mp hmem with rfl | hmem'
      · exact absurd ha hnot
      · exact ⟨it, hmem', hnot⟩
    · have e1 : imageStep (fs, r) a = imageStep (fs, r') a := by
        simp [imageStep, ha, colorFor]
      rw [e1]

theorem createImages_indep (fs : FS) (r r' : RandState)
    (h : ∃ it ∈ imageItems, it.1 ∉ fs) :
    createImages fs r = createImages fs r' :=
  imageFold_indep imageItems fs r r' h

/-- C2 (amended).  When at least one placeholder image is missing, the run
re-seeds the generator while synthesising it, so the whole command outcome is
independent of the interpreter's startup RNG state. -/
theorem seed_rng_indep (reset : Bool) (st : State) (fs : FS)
    (rng rng' : RandState) (h : ∃ it ∈ imageItems, it.1 ∉ fs) :
    runCommand reset st fs rng = runCommand reset st fs rng' := by
  have him := createImages_indep fs rng rng' h
  have hbody : seedBody reset st fs rng = seedBody reset st fs rng' := by
    unfold seedBody
    rw [him]
  unfold runCommand
  rw [hbody, him]

theorem seed_rng_indep_witness :
    (∃ it ∈ imageItems, it.1 ∉ ([] : FS)) ∧
    runCommand false emptyState [] (cstream 0) =
      runCommand false emptyState [] (cstream 1) :=
  ⟨by decide,
    seed_rng_indep false emptyState [] (cstream 0) (cstream 1) (by decide)⟩

set_option maxRecDepth 100000 in
/-- C2 (counterexample).  When every placeholder image already exists the
generator is never seeded, and two runs from the same database and
filesystem state but different startup RNG states produce different seller
ratings. -/
theorem seed_not_deterministic :
    (runCommand false emptyState allImagePaths (cstream 0)).ok = true ∧
    (runCommand false emptyState allImagePaths (cstream 1)).ok = true ∧
    (runCommand false emptyState allImagePaths (cstream 0)).state.sellers.map
        (fun s => s.rating) ≠
      (runCommand false emptyState allImagePaths (cstream 1)).state.sellers.map
        (fun s => s.rating) :=
  ⟨by decide, by decide, by decide⟩

/-- C6.  In every reachable database state, two distinct SellerProduct rows
differ in their (seller, product) pair and in their seller_sku. -/
theorem sellerproduct_uniqueness (st : State) (h : Reachable st) :
    ∀ a ∈ st.sellerProducts, ∀ b ∈ st.sellerProducts, a ≠ b →
      (a.seller, a.product) ≠ (b.seller, b.product) ∧
        a.sellerSku ≠ b.sellerSku := by
  intro a ha b hb hab
  have hsp := (reachable_invariants st h).1
  have hrel := distinctBy_rel hsp a ha b hb hab
  have hconv : ∀ x y : SellerProductRow, spOkB x y = true →
      (x.seller, x.product) ≠ (y.seller, y.product) ∧
        x.sellerSku ≠ y.sellerSku := by
    intro x y hxy
    rw [spOkB, Bool.and_eq_true] at hxy
    constructor
    · intro hc
      have h1 : x.seller = y.seller := congrArg Prod.fst hc
      have h2 : x.product = y.product := congrArg Prod.snd hc
      simp [h1, h2] at hxy
    · intro hc
      simp [hc] at hxy
  rcases hrel with hrel | hrel
  · exact hconv a b hrel
  · obtain ⟨h1, h2⟩ := hconv b a hrel
    exact ⟨fun hc => h1 hc.symm, fun hc => h2 hc.symm⟩

def c6state : State :=
  applyOp (.insertSellerProduct 1 3 "SKU-B" 5 5)
    (applyOp (.insertSellerProduct 1 2 "SKU-A" 4 4) emptyState)

def spRowA : SellerProductRow :=
  { id := 0, seller := 1, product := 2, sellerSku := "SKU-A",
    sellerPrice := 4, sellerStock := 4 }

def spRowB : SellerProductRow :=
  { id := 1, seller := 1, product := 3, sellerSku := "SKU-B",
    sellerPrice := 5, sellerStock := 5 }

theorem sellerproduct_uniqueness_witness :
    spRowA ∈ c6state.sellerProducts ∧ spRowB ∈ c6state.sellerProducts ∧
    spRowA ≠ spRowB ∧
    ((spRowA.seller, spRowA.product) ≠ (spRowB.seller, spRowB.product) ∧
      spRowA.sellerSku ≠ spRowB.sellerSku) := by
  have hre : Reachable c6state :=
    Reachable.step (Op.insertSellerProduct 1 3 "SKU-B" 5 5) _
      (Reachable.step (Op.insertSellerProduct 1 2 "SKU-A" 4 4) _ Reachable.base)
  exact ⟨by decide, by decide, by decide,
    sellerproduct_uniqueness c6state hre spRowA (by decide) spRowB (by decide)
      (by decide)⟩

/-- C7.  Newsletter emails and Favorite (user, product) pairs are unique in
every reachable state, and creating a duplicate leaves the table without a
second row. -/
theorem newsletter_favorite_uniqueness :
    (∀ st : State, Reachable st →
      (∀ a ∈ st.newsletters, ∀ b ∈ st.newsletters, a ≠ b →
        a.email ≠ b.email) ∧
      (∀ a ∈ st.favorites, ∀ b ∈ st.favorites, a ≠ b →
        (a.user, a.product) ≠ (b.user, b.product))) ∧
    (∀ (st : State) (e : String), (∃ r ∈ st.newsletters, r.email = e) →
      applyOp (.insertNewsletter e) st = st) ∧
    (∀ (st : State) (u p : Nat),
      (∃ r ∈ st.favorites, r.user = u ∧ r.product = p) →
      applyOp (.insertFavorite u p) st = st) := by
  refine ⟨?_, ?_, ?_⟩
  · intro st h
    obtain ⟨-, hnl, hfav⟩ := reachable_invariants st h
    constructor
    · intro a ha b hb hab
      rcases distinctBy_rel hnl a ha b hb hab with hr | hr
      · simpa using hr
      · have hba : b.email ≠ a.email := by simpa using hr
        exact fun hc => hba hc.symm
    · intro a ha b hb hab
      rcases distinctBy_rel hfav a ha b hb hab with hr | hr
      · intro hc
        have h1 : a.user = b.user := congrArg Prod.fst hc
        have h2 : a.product = b.product := congrArg Prod.snd hc
        simp [h1, h2] at hr
      · intro hc
        have h1 : a.user = b.user := congrArg Prod.fst hc
        have h2 : a.product = b.product := congrArg Prod.snd hc
        simp [h1, h2] at hr
  · rintro st e ⟨r, hr, hre⟩
    simp only [applyOp]
    rw [if_pos]
    exact List.any_eq_true.mpr ⟨r, hr, by simp [hre]⟩
  · rintro st u p ⟨r, hr, hru, hrp⟩
    simp only [applyOp]
    rw [if_pos]
    exact List.any_eq_true.mpr ⟨r, hr, by simp [hru, hrp]⟩

def c7state : State :=
  applyOp (.insertFavorite 1 3)
    (applyOp (.insertFavorite 1 2)
      (applyOp (.insertNewsletter "b@kala.local")
        (applyOp (.insertNewsletter "a@kala.local") emptyState)))

def nlRow0 : NewsletterRow := { id := 0, email := "a@kala.local" }

def nlRow1 : NewsletterRow := { id := 1, email := "b@kala.local" }

def favRow2 : FavoriteRow := { id := 2, user := 1, product := 2 }

def favRow3 : FavoriteRow := { id := 3, user := 1, product := 3 }

theorem newsletter_favorite_uniqueness_witness :
    (nlRow0 ∈ c7state.newsletters ∧ nlRow1 ∈ c7state.newsletters ∧
      nlRow0 ≠ nlRow1 ∧ nlRow0.email ≠ nlRow1.email) ∧
    (favRow2 ∈ c7state.favorites ∧ favRow3 ∈ c7state.favorites ∧
      favRow2 ≠ favRow3 ∧
      (favRow2.user, favRow2.product) ≠ (favRow3.user, favRow3.product)) ∧
    applyOp (.insertNewsletter "a@kala.local") c7state = c7state ∧
    applyOp (.insertFavorite 1 2) c7state = c7state := by
  have hre : Reachable c7state :=
    Reachable.step (Op.insertFavorite 1 3) _
      (Reachable.step (Op.insertFavorite 1 2) _
        (Reachable.step (Op.insertNewsletter "b@kala.local") _
          (Reachable.step (Op.insertNewsletter "a@kala.local") _
            Reachable.base)))
  refine ⟨⟨by decide, by decide, by decide,
      (newsletter_favorite_uniqueness.1 c7state hre).1 nlRow0 (by decide)
        nlRow1 (by decide) (by decide)⟩,
    ⟨by decide, by decide, by decide,
      (newsletter_favorite_uniqueness.1 c7state hre).2 favRow2 (by decide)
        favRow3 (by decide) (by decide)⟩,
    newsletter_favorite_uniqueness.2.1 c7state "a@kala.local"
      ⟨nlRow0, by decide, by decide⟩,
    newsletter_favorite_uniqueness.2.2 c7state 1 2
      ⟨favRow2, by decide, by decide, by decide⟩⟩

/-!  What _reset_data does to each remaining table. -/

theorem resetData_orders (st : State) : (resetData st).orders = [] := by
  simp [resetData, deleteOrdersBy, deleteProductsBy, deleteArtisansBy,
    deleteSellersBy, deleteCategoriesBy, deleteRegionsBy, deleteUsersBy, hitsAny]

theorem resetData_products (st : State) : (resetData st).products = [] := by
  simp [resetData, deleteOrdersBy, deleteProductsBy, deleteArtisansBy,
    deleteSellersBy, deleteCategoriesBy, deleteRegionsBy, deleteUsersBy, hitsAny]

theorem resetData_artisans (st : State) : (resetData st).artisans = [] := by
  simp [resetData, deleteOrdersBy, deleteProductsBy, deleteArtisansBy,
    deleteSellersBy, deleteCategoriesBy, deleteRegionsBy, deleteUsersBy, hitsAny]

theorem resetData_sellers (st : State) : (resetData st).sellers = [] := by
  simp [resetData, deleteOrdersBy, deleteProductsBy, deleteArtisansBy,
    deleteSellersBy, deleteCategoriesBy, deleteRegionsBy, deleteUsersBy, hitsAny]

theorem resetData_categories (st : State) : (resetData st).categories = [] := by
  simp [resetData, deleteOrdersBy, deleteProductsBy, deleteArtisansBy,
    deleteSellersBy, deleteCategoriesBy, deleteRegionsBy, deleteUsersBy, hitsAny]

theorem resetData_regions (st : State) : (resetData st).regions = [] := by
  simp [resetData, deleteOrdersBy, deleteProductsBy, deleteArtisansBy,
    deleteSellersBy, deleteCategoriesBy, deleteRegionsBy, deleteUsersBy, hitsAny]

theorem resetData_galleryImages (st : State) :
    (resetData st).galleryImages = [] := rfl

theorem resetData_culturalStories (st : State) :
    (resetData st).culturalStories = [] := rfl

theorem resetData_storyPosts (st : State) : (resetData st).storyPosts = [] := rfl

theorem resetData_profiles (st : State) : (resetData st).profiles = [] := rfl

theorem resetData_favorites_nil (st : State)
    (hfav : ∀ r ∈ st.favorites, ∃ q ∈ st.products, q.id = r.product) :
    (resetData st).favorites = [] := by
  have e : (resetData st).favorites =
      (st.favorites.filter (fun r =>
        !(hitsAny ((st.products.filter (fun q => true)).map (fun q => q.id))
          r.product))).filter
        (fun r => !(hitsAny ((st.users.filter (fun v => !v.isSuperuser)).map
          (fun v => v.id)) r.user)) := rfl
  have h1 : st.favorites.filter (fun r =>
      !(hitsAny ((st.products.filter (fun q => true)).map (fun q => q.id))
        r.product)) = [] := by
    rw [List.filter_eq_nil_iff]
    intro r hr
    obtain ⟨q, hq, hqid⟩ := hfav r hr
    have hmem : r.product ∈ st.products.map (fun q => q.id) := by
      rw [← hqid]
      exact List.mem_map_of_mem _ hq
    simp [(hitsAny_eq_mem _ _).mpr hmem]
  rw [e, h1]
  rfl

theorem resetData_users (st : State)
    (hids : ∀ a ∈ st.users, ∀ b ∈ st.users, a.id = b.id → a = b) :
    (resetData st).users = st.users.filter (fun u => u.isSuperuser) := by
  have e : (resetData st).users = st.users.filter (fun u =>
      !(hitsAny ((st.users.filter (fun v => !v.isSuperuser)).map
        (fun v => v.id)) u.id)) := rfl
  rw [e]
  apply List.filter_congr
  intro u hu
  cases hsup : u.isSuperuser with
  | false =>
    have hmem : u.id ∈
        (st.users.filter (fun v => !v.isSuperuser)).map (fun v => v.id) :=
      List.mem_map_of_mem _ (List.mem_filter.mpr ⟨hu, by simp [hsup]⟩)
    simp [(hitsAny_eq_mem _ _).mpr hmem]
  | true =>
    have hno : hitsAny ((st.users.filter (fun v => !v.isSuperuser)).map
        (fun v => v.id)) u.id = false := by
      rw [← Bool.not_eq_true, hitsAny_eq_mem]
      intro hc
      obtain ⟨v, hv, hvid⟩ := List.mem_map.mp hc
      have hvf := List.mem_filter.mp hv
      have hveq := hids v hvf.1 u hu hvid
      rw [hveq] at hvf
      simp [hsup] at hvf
    simp [hno]

theorem resetData_emailOtps_mem (st : State)
    (hids : ∀ a ∈ st.users, ∀ b ∈ st.users, a.id = b.id → a = b) :
    ∀ r ∈ st.emailOtps, ∀ u ∈ st.users, u.id = r.user →
      (u.isSuperuser = true → r ∈ (resetData st).emailOtps) ∧
      (u.isSuperuser = false → r ∉ (resetData st).emailOtps) := by
  intro r hr u hu huid
  have e : (resetData st).emailOtps = st.emailOtps.filter (fun x =>
      !(hitsAny ((st.users.filter (fun v => !v.isSuperuser)).map
        (fun v => v.id)) x.user)) := rfl
  constructor
  · intro hsup
    rw [e]
    refine List.mem_filter.mpr ⟨hr, ?_⟩
    have hno : hitsAny ((st.users.filter (fun v => !v.isSuperuser)).map
        (fun v => v.id)) r.user = false := by
      rw [← Bool.not_eq_true, hitsAny_eq_mem]
      intro hc
      obtain ⟨v, hv, hvid⟩ := List.mem_map.mp hc
      have hvf := List.mem_filter.mp hv
      have hveq : v = u := hids v hvf.1 u hu (hvid.trans huid.symm)
      rw [hveq] at hvf
      simp [hsup] at hvf
    simp [hno]
  · intro hsup hcmem
    rw [e] at hcmem
    have hpred := (List.mem_filter.mp hcmem).2
    have hmem : r.user ∈
        (st.users.filter (fun v => !v.isSuperuser)).map (fun v => v.id) := by
      rw [← huid]
      exact List.mem_map_of_mem _ (List.mem_filter.mpr ⟨hu, by simp [hsup]⟩)
    simp [(hitsAny_eq_mem _ _).mpr hmem] at hpred

/-- C10 (amended).  On a state with unique user ids and favorites whose
product references exist, _reset_data empties every kalakriti table from
models.py (Favorite via the Product/User cascades), keeps exactly the
superuser accounts unchanged, and of the EmailOTP rows deletes exactly those
owned by a deleted (non-superuser) account — superusers' EmailOTP rows
survive. -/
theorem reset_frame (st : State)
    (hids : ∀ a ∈ st.users, ∀ b ∈ st.users, a.id = b.id → a = b)
    (hfav : ∀ r ∈ st.favorites, ∃ q ∈ st.products, q.id = r.product) :
    (resetData st).orderItems = [] ∧
    (resetData st).orders = [] ∧
    (resetData st).productActivities = [] ∧
    (resetData st).sellerProducts = [] ∧
    (resetData st).products = [] ∧
    (resetData st).galleryImages = [] ∧
    (resetData st).culturalStories = [] ∧
    (resetData st).storyPosts = [] ∧
    (resetData st).artisans = [] ∧
    (resetData st).sellers = [] ∧
    (resetData st).profiles = [] ∧
    (resetData st).newsletters = [] ∧
    (resetData st).categories = [] ∧
    (resetData st).regions = [] ∧
    (resetData st).favorites = [] ∧
    (resetData st).users = st.users.filter (fun u => u.isSuperuser) ∧
    (∀ r ∈ st.emailOtps, ∀ u ∈ st.users, u.id = r.user →
      (u.isSuperuser = true → r ∈ (resetData st).emailOtps) ∧
      (u.isSuperuser = false → r ∉ (resetData st).emailOtps)) :=
  ⟨resetData_orderItems st, resetData_orders st,
    resetData_productActivities st, resetData_sellerProducts st,
    resetData_products st, resetData_galleryImages st,
    resetData_culturalStories st, resetData_storyPosts st,
    resetData_artisans st, resetData_sellers st, resetData_profiles st,
    resetData_newsletters st, resetData_categories st, resetData_regions st,
    resetData_favorites_nil st hfav, resetData_users st hids,
    resetData_emailOtps_mem st hids⟩

/-!  A superuser with a pending EmailOTP row. -/

def superRow : UserRow :=
  { id := 0, username := "root", email := "root@kala.local",
    password := some "pw", isStaff := true, isSuperuser := true }

def otpRow : EmailOtpRow :=
  { id := 1, user := 0, code := "123456", isUsed := false, attempts := 0 }

def stOtp : State :=
  { emptyState with users := [superRow], emailOtps := [otpRow], nextId := 2 }

/-- C10 (counterexample).  _reset_data does not delete all rows of every
application entity type: an EmailOTP row owned by a superuser survives. -/
theorem reset_leaves_emailotp :
    otpRow ∈ stOtp.emailOtps ∧ (resetData stOtp).emailOtps ≠ [] :=
  ⟨by decide, by decide⟩

theorem reset_frame_witness :
    (resetData stOtp).products = [] ∧ (resetData stOtp).favorites = [] ∧
    (resetData stOtp).users = stOtp.users.filter (fun u => u.isSuperuser) ∧
    otpRow ∈ (resetData stOtp).emailOtps := by
  obtain ⟨h1, h2, h3, h4, h5, h6, h7, h8, h9, h10, h11, h12, h13, h14, h15,
    h16, h17⟩ := reset_frame stOtp (by decide) (by decide)
  exact ⟨h5, h15, h16, (h17 otpRow (by decide) superRow (by decide)
    (by decide)).1 (by decide)⟩

/-!  Literal snapshots of the states of a first run and of second runs
(used so that proofs evaluate each pipeline once). -/

def firstState : State :=
  { users := [{ id := 0, username := "admin", email := "admin@kala.local", password := some "Admin123!", isStaff := true, isSuperuser := true }, { id := 1, username := "neha", email := "neha@kala.local", password := some "Kala123!", isStaff := false, isSuperuser := false }, { id := 2, username := "vikram", email := "vikram@kala.local", password := some "Kala123!", isStaff := false, isSuperuser := false }, { id := 3, username := "sadbhav", email := "sadbhav@kala.local", password := some "Kala123!", isStaff := false, isSuperuser := false }, { id := 4, username := "raaga", email := "raaga@kala.local", password := some "Kala123!", isStaff := false, isSuperuser := false }, { id := 5, username := "sundar", email := "sundar@kala.local", password := some "Kala123!", isStaff := false, isSuperuser := false }], profiles := [{ id := 6, user := 1, userType := "buyer", phone := "+91-9876543210", address := "Jaipur Heritage Street, Craft Block", city := "Jaipur", state := "India", pincode := "302001", profileImage := "profiles/buyer1.jpg", termsVersion := "v1", sellerVerified := false }, { id := 7, user := 2, userType := "buyer", phone := "+91-9898989898", address := "Ahmedabad Heritage Street, Craft Block", city := "Ahmedabad", state := "India", pincode := "302001", profileImage := "profiles/buyer1.jpg", termsVersion := "v1", sellerVerified := false }, { id := 8, user := 3, userType := "seller", phone := "+91-9000000001", address := "Jaipur Heritage Street, Craft Block", city := "Jaipur", state := "India", pincode := "302001", profileImage := "profiles/buyer2.jpg", termsVersion := "v1", sellerVerified := false }, { id := 9, user := 4, userType := "seller", phone := "+91-9000000002", address := "Kolkata Heritage Street, Craft Block", city := "Kolkata", state := "India", pincode := "302001", profileImage := "profiles/buyer2.jpg", termsVersion := "v1", sellerVerified := false }, { id := 10, user := 5, userType := "seller", phone := "+91-9000000003", address := "Chennai Heritage Street, Craft Block", city := "Chennai", state := "India", pincode := "302001", profileImage := "profiles/buyer2.jpg", termsVersion := "v1", sellerVerified := false }], sellers := [{ id := 23, user := 3, shopName := "Sadbhav Crafts", shopDescription := "Curated heritage crafts from Rajasthan.", shopLogo := "shop_logos/sadbhav-crafts.jpg", phone := "+91-9000000000", state := "Rajasthan", bankAccount := "1234567890", bankName := "Kala Bank", ifscCode := "KALA0001234", totalProducts := 2, totalSales := 1350000, rating := 460, isVerified := true, isActive := true }, { id := 24, user := 4, shopName := "Raaga Studio", shopDescription := "Textile studio celebrating Bengal artisans.", shopLogo := "shop_logos/raaga-studio.jpg", phone := "+91-9000000000", state := "West Bengal", bankAccount := "1234567890", bankName := "Kala Bank", ifscCode := "KALA0001234", totalProducts := 2, totalSales := 1250000, rating := 479, isVerified := true, isActive := true }, { id := 25, user := 5, shopName := "Sundar Collective", shopDescription := "Southern crafts and ritual art pieces.", shopLogo := "shop_logos/sundar-collective.jpg", phone := "+91-9000000000", state := "Tamil Nadu", bankAccount := "1234567890", bankName := "Kala Bank", ifscCode := "KALA0001234", totalProducts := 2, totalSales := 1150000, rating := 427, isVerified := true, isActive := true }], sellerProducts := [{ id := 32, seller := 23, product := 26, sellerSku := "BLUE-POTTE-3429", sellerPrice := 249900, sellerStock := 12 }, { id := 33, seller := 23, product := 27, sellerSku := "AJRAKH-COT-5251", sellerPrice := 189900, sellerStock := 25 }, { id := 34, seller := 24, product := 28, sellerSku := "TERRACOTTA-7073", sellerPrice := 159900, sellerStock := 18 }, { id := 35, seller := 25, product := 29, sellerSku := "KALAMKARI--8895", sellerPrice := 319900, sellerStock := 8 }, { id := 36, seller := 25, product := 30, sellerSku := "SILVER-JHU-1717", sellerPrice := 129900, sellerStock := 32 }, { id := 37, seller := 24, product := 31, sellerSku := "KANTHA-THR-3539", sellerPrice := 279900, sellerStock := 14 }], productActivities := [{ id := 57, seller := 23, product := 26, activityType := "click", user := some 2, detailsSource := "seed", detailsRef := "homepage" }, { id := 58, seller := 23, product := 26, activityType := "click", user := some 2, detailsSource := "seed", detailsRef := "homepage" }, { id := 59, seller := 23, product := 26, activityType := "click", user := some 2, detailsSource := "seed", detailsRef := "homepage" }, { id := 60, seller := 23, product := 27, activityType := "click", user := some 2, detailsSource := "seed", detailsRef := "homepage" }, { id := 61, seller := 23, product := 27, activityType := "click", user := some 2, detailsSource := "seed", detailsRef := "homepage" }, { id := 62, seller := 23, product := 27, activityType := "click", user := some 2, detailsSource := "seed", detailsRef := "homepage" }, { id := 63, seller := 24, product := 28, activityType := "click", user := some 2, detailsSource := "seed", detailsRef := "homepage" }, { id := 64, seller := 24, product := 28, activityType := "click", user := some 2, detailsSource := "seed", detailsRef := "homepage" }, { id := 65, seller := 24, product := 28, activityType := "click", user := some 2, detailsSource := "seed", detailsRef := "homepage" }, { id := 66, seller := 25, product := 29, activityType := "click", user := some 2, detailsSource := "seed", detailsRef := "homepage" }, { id := 67, seller := 25, product := 29, activityType := "click", user := some 2, detailsSource := "seed", detailsRef := "homepage" }, { id := 68, seller := 25, product := 29, activityType := "click", user := some 2, detailsSource := "seed", detailsRef := "homepage" }, { id := 69, seller := 25, product := 30, activityType := "click", user := some 2, detailsSource := "seed", detailsRef := "homepage" }, { id := 70, seller := 25, product := 30, activityType := "click", user := some 2, detailsSource := "seed", detailsRef := "homepage" }, { id := 71, seller := 25, product := 30, activityType := "click", user := some 2, detailsSource := "seed", detailsRef := "homepage" }, { id := 72, seller := 24, product := 31, activityType := "click", user := some 2, detailsSource := "seed", detailsRef := "homepage" }, { id := 73, seller := 24, product := 31, activityType := "click", user := some 2, detailsSource := "seed", detailsRef := "homepage" }, { id := 74, seller := 24, product := 31, activityType := "click", user := some 2, detailsSource := "seed", detailsRef := "homepage" }], categories := [{ id := 15, name := "Textiles", slug := "textiles", description := "Handwoven stoles, sarees, and throws.", image := "categories/textiles.jpg" }, { id := 16, name := "Pottery", slug := "pottery", description := "Terracotta and glazed ceramic pieces.", image := "categories/pottery.jpg" }, { id := 17, name := "Jewelry", slug := "jewelry", description := "Silver, beadwork, and folk accessories.", image := "categories/jewelry.jpg" }, { id := 18, name := "Paintings", slug := "paintings", description := "Narrative paintings and wall art.", image := "categories/paintings.jpg" }], regions := [{ id := 11, name := "Rajasthan", slug := "rajasthan", description := "Vibrant desert culture with block printing, blue pottery, and mirror work.", image := "regions/rajasthan.jpg", culturalHeritage := "Rajasthan preserves legacy craft communities and heritage guilds." }, { id := 12, name := "Gujarat", slug := "gujarat", description := "Home to Ajrakh, Patola, and folk embroidery traditions.", image := "regions/gujarat.jpg", culturalHeritage := "Gujarat preserves legacy craft communities and heritage guilds." }, { id := 13, name := "West Bengal", slug := "west-bengal", description := "Known for Kantha, terracotta, and storytelling through textiles.", image := "regions/west-bengal.jpg", culturalHeritage := "West Bengal preserves legacy craft communities and heritage guilds." }, { id := 14, name := "Tamil Nadu", slug := "tamil-nadu", description := "Celebrated for Kalamkari, bronze casting, and temple arts.", image := "regions/tamil-nadu.jpg", culturalHeritage := "Tamil Nadu preserves legacy craft communities and heritage guilds." }], artisans := [{ id := 19, name := "Meera Sharma", slug := "meera-sharma", bio := "Blue pottery artisan specializing in floral glaze work.", image := "artisans/meera-sharma.jpg", region := 11, specialty := "Blue Pottery", yearsOfExperience := 12, email := "meera-sharma@kala.local", phone := "+91-9000011122", website := "https://meera-sharma.example.com", instagram := "https://instagram.com/meera-sharma", featured := true }, { id := 20, name := "Arjun Patel", slug := "arjun-patel", bio := "Ajrakh block printer with a focus on natural dyes.", image := "artisans/arjun-patel.jpg", region := 12, specialty := "Ajrakh Printing", yearsOfExperience := 18, email := "arjun-patel@kala.local", phone := "+91-9000011122", website := "https://arjun-patel.example.com", instagram := "https://instagram.com/arjun-patel", featured := true }, { id := 21, name := "Riya Sen", slug := "riya-sen", bio := "Kantha storyteller bringing heritage motifs to modern throws.", image := "artisans/riya-sen.jpg", region := 13, specialty := "Kantha Embroidery", yearsOfExperience := 10, email := "riya-sen@kala.local", phone := "+91-9000011122", website := "https://riya-sen.example.com", instagram := "https://instagram.com/riya-sen", featured := false }, { id := 22, name := "Karthik Iyer", slug := "karthik-iyer", bio := "Kalamkari painter known for temple-inspired wall art.", image := "artisans/karthik-iyer.jpg", region := 14, specialty := "Kalamkari", yearsOfExperience := 15, email := "karthik-iyer@kala.local", phone := "+91-9000011122", website := "https://karthik-iyer.example.com", instagram := "https://instagram.com/karthik-iyer", featured := false }], products := [{ id := 26, name := "Blue Pottery Vase", slug := "blue-pottery-vase", description := "Hand-painted blue pottery vase with floral patterns.", category := some 16, region := some 11, artisan := some 19, seller := some 23, price := 249900, originalPrice := some 289900, stock := 12, image := "products/blue-pottery-vase.jpg", galleryImages := ["products/blue-pottery-vase.jpg"], featured := true, inStock := true, rating := 443, reviewsCount := 6 }, { id := 27, name := "Ajrakh Cotton Stole", slug := "ajrakh-cotton-stole", description := "Naturally dyed Ajrakh stole with geometric motifs.", category := some 15, region := some 12, artisan := some 20, seller := some 23, price := 189900, originalPrice := some 229900, stock := 25, image := "products/ajrakh-stole.jpg", galleryImages := ["products/ajrakh-stole.jpg"], featured := true, inStock := true, rating := 424, reviewsCount := 14 }, { id := 28, name := "Terracotta Lamp", slug := "terracotta-lamp", description := "Handcrafted terracotta lamp with cutwork design.", category := some 16, region := some 13, artisan := some 21, seller := some 24, price := 159900, originalPrice := some 199900, stock := 18, image := "products/terracotta-lamp.jpg", galleryImages := ["products/terracotta-lamp.jpg"], featured := false, inStock := true, rating := 486, reviewsCount := 22 }, { id := 29, name := "Kalamkari Wall Art", slug := "kalamkari-wall-art", description := "Detailed Kalamkari wall art inspired by temple narratives.", category := some 18, region := some 14, artisan := some 22, seller := some 25, price := 319900, originalPrice := some 359900, stock := 8, image := "products/kalamkari-wall-art.jpg", galleryImages := ["products/kalamkari-wall-art.jpg"], featured := true, inStock := true, rating := 467, reviewsCount := 30 }, { id := 30, name := "Silver Jhumkas", slug := "silver-jhumkas", description := "Hand-finished silver jhumkas with bead detailing.", category := some 17, region := some 12, artisan := some 20, seller := some 25, price := 129900, originalPrice := some 169900, stock := 32, image := "products/silver-jhumkas.jpg", galleryImages := ["products/silver-jhumkas.jpg"], featured := true, inStock := true, rating := 480, reviewsCount := 31 }, { id := 31, name := "Kantha Throw", slug := "kantha-throw", description := "Soft Kantha throw with layered storytelling motifs.", category := some 15, region := some 13, artisan := some 21, seller := some 24, price := 279900, originalPrice := some 319900, stock := 14, image := "products/kantha-throw.jpg", galleryImages := ["products/kantha-throw.jpg"], featured := false, inStock := true, rating := 461, reviewsCount := 39 }], culturalStories := [{ id := 38, title := "Threads of the Desert", slug := "threads-of-the-desert", content := "Rajasthan\x27s textile heritage blends color, mirror work, and nomadic tales.", author := "Kala Editorial", featuredImage := "stories/heritage-textiles.jpg", region := 11, category := "Heritage", published := true }, { id := 39, title := "Ajrakh and the Rhythm of Print", slug := "ajrakh-and-the-rhythm-of-print", content := "Ajrakh printing is a ritual of dye, patience, and geometry.", author := "Kala Editorial", featuredImage := "stories/heritage-textiles.jpg", region := 12, category := "Heritage", published := true }, { id := 40, title := "Kantha: Stories in Stitches", slug := "kantha-stories-in-stitches", content := "Bengal\x27s Kantha reflects memory, daily life, and resilience.", author := "Kala Editorial", featuredImage := "stories/heritage-textiles.jpg", region := 13, category := "Heritage", published := true }, { id := 41, title := "Temple Murals and Kalamkari", slug := "temple-murals-and-kalamkari", content := "Tamil Nadu\x27s Kalamkari connects myth, craft, and devotion.", author := "Kala Editorial", featuredImage := "stories/heritage-textiles.jpg", region := 14, category := "Heritage", published := true }], storyPosts := [{ id := 42, user := 1, content := "Visited the artisans market today. The detailing was incredible.", mentionedProduct := none, mentionedArtisan := none }, { id := 43, user := 2, content := "Just got my handcrafted order. Quality is amazing and delivery was smooth.", mentionedProduct := none, mentionedArtisan := none }, { id := 44, user := 3, content := "New hand-painted collection just dropped this week.", mentionedProduct := none, mentionedArtisan := none }, { id := 45, user := 4, content := "Working on fresh textile patterns inspired by Bengal heritage.", mentionedProduct := none, mentionedArtisan := none }, { id := 46, user := 5, content := "Thank you for the support on our latest craft launch!", mentionedProduct := none, mentionedArtisan := none }], galleryImages := [{ id := 47, title := "Loom in Motion", image := "gallery/loom.jpg", description := "Loom in Motion capturing the craft process.", artisan := some 20, product := none, region := none, featured := true }, { id := 48, title := "Craft Atelier", image := "gallery/atelier.jpg", description := "Craft Atelier capturing the craft process.", artisan := some 22, product := none, region := none, featured := false }, { id := 49, title := "Blue Pottery Detail", image := "gallery/loom.jpg", description := "Blue Pottery Detail capturing the craft process.", artisan := none, product := some 26, region := none, featured := true }, { id := 50, title := "Terracotta Textures", image := "gallery/atelier.jpg", description := "Terracotta Textures capturing the craft process.", artisan := none, product := some 28, region := none, featured := false }, { id := 51, title := "Desert Workshop", image := "gallery/loom.jpg", description := "Desert Workshop capturing the craft process.", artisan := none, product := none, region := some 11, featured := false }], orders := [{ id := 52, user := 1, totalAmount := 439800, status := "delivered", shippingAddress := "Jaipur Heritage Street, 302001" }, { id := 53, user := 2, totalAmount := 279900, status := "processing", shippingAddress := "Ahmedabad Craft Lane, 380001" }], orderItems := [{ id := 54, order := 52, product := 26, quantity := 1, price := 249900 }, { id := 55, order := 52, product := 27, quantity := 1, price := 189900 }, { id := 56, order := 53, product := 31, quantity := 1, price := 279900 }], newsletters := [{ id := 75, email := "neha@kala.local" }, { id := 76, email := "vikram@kala.local" }], favorites := [], emailOtps := [], nextId := 77 }

def secondState1 : State :=
  { users := [{ id := 0, username := "admin", email := "admin@kala.local", password := some "Admin123!", isStaff := true, isSuperuser := true }, { id := 1, username := "neha", email := "neha@kala.local", password := some "Kala123!", isStaff := false, isSuperuser := false }, { id := 2, username := "vikram", email := "vikram@kala.local", password := some "Kala123!", isStaff := false, isSuperuser := false }, { id := 3, username := "sadbhav", email := "sadbhav@kala.local", password := some "Kala123!", isStaff := false, isSuperuser := false }, { id := 4, username := "raaga", email := "raaga@kala.local", password := some "Kala123!", isStaff := false, isSuperuser := false }, { id := 5, username := "sundar", email := "sundar@kala.local", password := some "Kala123!", isStaff := false, isSuperuser := false }], profiles := [{ id := 6, user := 1, userType := "buyer", phone := "+91-9876543210", address := "Jaipur Heritage Street, Craft Block", city := "Jaipur", state := "India", pincode := "302001", profileImage := "profiles/buyer1.jpg", termsVersion := "v1", sellerVerified := false }, { id := 7, user := 2, userType := "buyer", phone := "+91-9898989898", address := "Ahmedabad Heritage Street, Craft Block", city := "Ahmedabad", state := "India", pincode := "302001", profileImage := "profiles/buyer1.jpg", termsVersion := "v1", sellerVerified := false }, { id := 8, user := 3, userType := "seller", phone := "+91-9000000001", address := "Jaipur Heritage Street, Craft Block", city := "Jaipur", state := "India", pincode := "302001", profileImage := "profiles/buyer2.jpg", termsVersion := "v1", sellerVerified := false }, { id := 9, user := 4, userType := "seller", phone := "+91-9000000002", address := "Kolkata Heritage Street, Craft Block", city := "Kolkata", state := "India", pincode := "302001", profileImage := "profiles/buyer2.jpg", termsVersion := "v1", sellerVerified := false }, { id := 10, user := 5, userType := "seller", phone := "+91-9000000003", address := "Chennai Heritage Street, Craft Block", city := "Chennai", state := "India", pincode := "302001", profileImage := "profiles/buyer2.jpg", termsVersion := "v1", sellerVerified := false }], sellers := [{ id := 23, user := 3, shopName := "Sadbhav Crafts", shopDescription := "Curated heritage crafts from Rajasthan.", shopLogo := "shop_logos/sadbhav-crafts.jpg", phone := "+91-9000000000", state := "Rajasthan", bankAccount := "1234567890", bankName := "Kala Bank", ifscCode := "KALA0001234", totalProducts := 2, totalSales := 510000, rating := 460, isVerified := true, isActive := true }, { id := 24, user := 4, shopName := "Raaga Studio", shopDescription := "Textile studio celebrating Bengal artisans.", shopLogo := "shop_logos/raaga-studio.jpg", phone := "+91-9000000000", state := "West Bengal", bankAccount := "1234567890", bankName := "Kala Bank", ifscCode := "KALA0001234", totalProducts := 2, totalSales := 510000, rating := 479, isVerified := true, isActive := true }, { id := 25, user := 5, shopName := "Sundar Collective", shopDescription := "Southern crafts and ritual art pieces.", shopLogo := "shop_logos/sundar-collective.jpg", phone := "+91-9000000000", state := "Tamil Nadu", bankAccount := "1234567890", bankName := "Kala Bank", ifscCode := "KALA0001234", totalProducts := 2, totalSales := 510000, rating := 427, isVerified := true, isActive := true }], sellerProducts := [{ id := 32, seller := 23, product := 26, sellerSku := "BLUE-POTTE-3429", sellerPrice := 249900, sellerStock := 12 }, { id := 33, seller := 23, product := 27, sellerSku := "AJRAKH-COT-5251", sellerPrice := 189900, sellerStock := 25 }, { id := 34, seller := 24, product := 28, sellerSku := "TERRACOTTA-7073", sellerPrice := 159900, sellerStock := 18 }, { id := 35, seller := 25, product := 29, sellerSku := "KALAMKARI--8895", sellerPrice := 319900, sellerStock := 8 }, { id := 36, seller := 25, product := 30, sellerSku := "SILVER-JHU-1717", sellerPrice := 129900, sellerStock := 32 }, { id := 37, seller := 24, product := 31, sellerSku := "KANTHA-THR-3539", sellerPrice := 279900, sellerStock := 14 }], productActivities := [{ id := 57, seller := 23, product := 26, activityType := "click", user := some 2, detailsSource := "seed", detailsRef := "homepage" }, { id := 58, seller := 23, product := 26, activityType := "click", user := some 2, detailsSource := "seed", detailsRef := "homepage" }, { id := 59, seller := 23, product := 26, activityType := "click", user := some 2, detailsSource := "seed", detailsRef := "homepage" }, { id := 60, seller := 23, product := 27, activityType := "click", user := some 2, detailsSource := "seed", detailsRef := "homepage" }, { id := 61, seller := 23, product := 27, activityType := "click", user := some 2, detailsSource := "seed", detailsRef := "homepage" }, { id := 62, seller := 23, product := 27, activityType := "click", user := some 2, detailsSource := "seed", detailsRef := "homepage" }, { id := 63, seller := 24, product := 28, activityType := "click", user := some 2, detailsSource := "seed", detailsRef := "homepage" }, { id := 64, seller := 24, product := 28, activityType := "click", user := some 2, detailsSource := "seed", detailsRef := "homepage" }, { id := 65, seller := 24, product := 28, activityType := "click", user := some 2, detailsSource := "seed", detailsRef := "homepage" }, { id := 66, seller := 25, product := 29, activityType := "click", user := some 2, detailsSource := "seed", detailsRef := "homepage" }, { id := 67, seller := 25, product := 29, activityType := "click", user := some 2, detailsSource := "seed", detailsRef := "homepage" }, { id := 68, seller := 25, product := 29, activityType := "click", user := some 2, detailsSource := "seed", detailsRef := "homepage" }, { id := 69, seller := 25, product := 30, activityType := "click", user := some 2, detailsSource := "seed", detailsRef := "homepage" }, { id := 70, seller := 25, product := 30, activityType := "click", user := some 2, detailsSource := "seed", detailsRef := "homepage" }, { id := 71, seller := 25, product := 30, activityType := "click", user := some 2, detailsSource := "seed", detailsRef := "homepage" }, { id := 72, seller := 24, product := 31, activityType := "click", user := some 2, detailsSource := "seed", detailsRef := "homepage" }, { id := 73, seller := 24, product := 31, activityType := "click", user := some 2, detailsSource := "seed", detailsRef := "homepage" }, { id := 74, seller := 24, product := 31, activityType := "click", user := some 2, detailsSource := "seed", detailsRef := "homepage" }, { id := 77, seller := 23, product := 26, activityType := "click", user := some 2, detailsSource := "seed", detailsRef := "homepage" }, { id := 78, seller := 23, product := 26, activityType := "click", user := some 2, detailsSource := "seed", detailsRef := "homepage" }, { id := 79, seller := 23, product := 26, activityType := "click", user := some 2, detailsSource := "seed", detailsRef := "homepage" }, { id := 80, seller := 23, product := 27, activityType := "click", user := some 2, detailsSource := "seed", detailsRef := "homepage" }, { id := 81, seller := 23, product := 27, activityType := "click", user := some 2, detailsSource := "seed", detailsRef := "homepage" }, { id := 82, seller := 23, product := 27, activityType := "click", user := some 2, detailsSource := "seed", detailsRef := "homepage" }, { id := 83, seller := 24, product := 28, activityType := "click", user := some 2, detailsSource := "seed", detailsRef := "homepage" }, { id := 84, seller := 24, product := 28, activityType := "click", user := some 2, detailsSource := "seed", detailsRef := "homepage" }, { id := 85, seller := 24, product := 28, activityType := "click", user := some 2, detailsSource := "seed", detailsRef := "homepage" }, { id := 86, seller := 25, product := 29, activityType := "click", user := some 2, detailsSource := "seed", detailsRef := "homepage" }, { id := 87, seller := 25, product := 29, activityType := "click", user := some 2, detailsSource := "seed", detailsRef := "homepage" }, { id := 88, seller := 25, product := 29, activityType := "click", user := some 2, detailsSource := "seed", detailsRef := "homepage" }, { id := 89, seller := 25, product := 30, activityType := "click", user := some 2, detailsSource := "seed", detailsRef := "homepage" }, { id := 90, seller := 25, product := 30, activityType := "click", user := some 2, detailsSource := "seed", detailsRef := "homepage" }, { id := 91, seller := 25, product := 30, activityType := "click", user := some 2, detailsSource := "seed", detailsRef := "homepage" }, { id := 92, seller := 24, product := 31, activityType := "click", user := some 2, detailsSource := "seed", detailsRef := "homepage" }, { id := 93, seller := 24, product := 31, activityType := "click", user := some 2, detailsSource := "seed", detailsRef := "homepage" }, { id := 94, seller := 24, product := 31, activityType := "click", user := some 2, detailsSource := "seed", detailsRef := "homepage" }], categories := [{ id := 15, name := "Textiles", slug := "textiles", description := "Handwoven stoles, sarees, and throws.", image := "categories/textiles.jpg" }, { id := 16, name := "Pottery", slug := "pottery", description := "Terracotta and glazed ceramic pieces.", image := "categories/pottery.jpg" }, { id := 17, name := "Jewelry", slug := "jewelry", description := "Silver, beadwork, and folk accessories.", image := "categories/jewelry.jpg" }, { id := 18, name := "Paintings", slug := "paintings", description := "Narrative paintings and wall art.", image := "categories/paintings.jpg" }], regions := [{ id := 11, name := "Rajasthan", slug := "rajasthan", description := "Vibrant desert culture with block printing, blue pottery, and mirror work.", image := "regions/rajasthan.jpg", culturalHeritage := "Rajasthan preserves legacy craft communities and heritage guilds." }, { id := 12, name := "Gujarat", slug := "gujarat", description := "Home to Ajrakh, Patola, and folk embroidery traditions.", image := "regions/gujarat.jpg", culturalHeritage := "Gujarat preserves legacy craft communities and heritage guilds." }, { id := 13, name := "West Bengal", slug := "west-bengal", description := "Known for Kantha, terracotta, and storytelling through textiles.", image := "regions/west-bengal.jpg", culturalHeritage := "West Bengal preserves legacy craft communities and heritage guilds." }, { id := 14, name := "Tamil Nadu", slug := "tamil-nadu", description := "Celebrated for Kalamkari, bronze casting, and temple arts.", image := "regions/tamil-nadu.jpg", culturalHeritage := "Tamil Nadu preserves legacy craft communities and heritage guilds." }], artisans := [{ id := 19, name := "Meera Sharma", slug := "meera-sharma", bio := "Blue pottery artisan specializing in floral glaze work.", image := "artisans/meera-sharma.jpg", region := 11, specialty := "Blue Pottery", yearsOfExperience := 12, email := "meera-sharma@kala.local", phone := "+91-9000011122", website := "https://meera-sharma.example.com", instagram := "https://instagram.com/meera-sharma", featured := true }, { id := 20, name := "Arjun Patel", slug := "arjun-patel", bio := "Ajrakh block printer with a focus on natural dyes.", image := "artisans/arjun-patel.jpg", region := 12, specialty := "Ajrakh Printing", yearsOfExperience := 18, email := "arjun-patel@kala.local", phone := "+91-9000011122", website := "https://arjun-patel.example.com", instagram := "https://instagram.com/arjun-patel", featured := true }, { id := 21, name := "Riya Sen", slug := "riya-sen", bio := "Kantha storyteller bringing heritage motifs to modern throws.", image := "artisans/riya-sen.jpg", region := 13, specialty := "Kantha Embroidery", yearsOfExperience := 10, email := "riya-sen@kala.local", phone := "+91-9000011122", website := "https://riya-sen.example.com", instagram := "https://instagram.com/riya-sen", featured := false }, { id := 22, name := "Karthik Iyer", slug := "karthik-iyer", bio := "Kalamkari painter known for temple-inspired wall art.", image := "artisans/karthik-iyer.jpg", region := 14, specialty := "Kalamkari", yearsOfExperience := 15, email := "karthik-iyer@kala.local", phone := "+91-9000011122", website := "https://karthik-iyer.example.com", instagram := "https://instagram.com/karthik-iyer", featured := false }], products := [{ id := 26, name := "Blue Pottery Vase", slug := "blue-pottery-vase", description := "Hand-painted blue pottery vase with floral patterns.", category := some 16, region := some 11, artisan := some 19, seller := some 23, price := 249900, originalPrice := some 289900, stock := 12, image := "products/blue-pottery-vase.jpg", galleryImages := ["products/blue-pottery-vase.jpg"], featured := true, inStock := true, rating := 443, reviewsCount := 6 }, { id := 27, name := "Ajrakh Cotton Stole", slug := "ajrakh-cotton-stole", description := "Naturally dyed Ajrakh stole with geometric motifs.", category := some 15, region := some 12, artisan := some 20, seller := some 23, price := 189900, originalPrice := some 229900, stock := 25, image := "products/ajrakh-stole.jpg", galleryImages := ["products/ajrakh-stole.jpg"], featured := true, inStock := true, rating := 424, reviewsCount := 14 }, { id := 28, name := "Terracotta Lamp", slug := "terracotta-lamp", description := "Handcrafted terracotta lamp with cutwork design.", category := some 16, region := some 13, artisan := some 21, seller := some 24, price := 159900, originalPrice := some 199900, stock := 18, image := "products/terracotta-lamp.jpg", galleryImages := ["products/terracotta-lamp.jpg"], featured := false, inStock := true, rating := 486, reviewsCount := 22 }, { id := 29, name := "Kalamkari Wall Art", slug := "kalamkari-wall-art", description := "Detailed Kalamkari wall art inspired by temple narratives.", category := some 18, region := some 14, artisan := some 22, seller := some 25, price := 319900, originalPrice := some 359900, stock := 8, image := "products/kalamkari-wall-art.jpg", galleryImages := ["products/kalamkari-wall-art.jpg"], featured := true, inStock := true, rating := 467, reviewsCount := 30 }, { id := 30, name := "Silver Jhumkas", slug := "silver-jhumkas", description := "Hand-finished silver jhumkas with bead detailing.", category := some 17, region := some 12, artisan := some 20, seller := some 25, price := 129900, originalPrice := some 169900, stock := 32, image := "products/silver-jhumkas.jpg", galleryImages := ["products/silver-jhumkas.jpg"], featured := true, inStock := true, rating := 480, reviewsCount := 31 }, { id := 31, name := "Kantha Throw", slug := "kantha-throw", description := "Soft Kantha throw with layered storytelling motifs.", category := some 15, region := some 13, artisan := some 21, seller := some 24, price := 279900, originalPrice := some 319900, stock := 14, image := "products/kantha-throw.jpg", galleryImages := ["products/kantha-throw.jpg"], featured := false, inStock := true, rating := 461, reviewsCount := 39 }], culturalStories := [{ id := 38, title := "Threads of the Desert", slug := "threads-of-the-desert", content := "Rajasthan\x27s textile heritage blends color, mirror work, and nomadic tales.", author := "Kala Editorial", featuredImage := "stories/heritage-textiles.jpg", region := 11, category := "Heritage", published := true }, { id := 39, title := "Ajrakh and the Rhythm of Print", slug := "ajrakh-and-the-rhythm-of-print", content := "Ajrakh printing is a ritual of dye, patience, and geometry.", author := "Kala Editorial", featuredImage := "stories/heritage-textiles.jpg", region := 12, category := "Heritage", published := true }, { id := 40, title := "Kantha: Stories in Stitches", slug := "kantha-stories-in-stitches", content := "Bengal\x27s Kantha reflects memory, daily life, and resilience.", author := "Kala Editorial", featuredImage := "stories/heritage-textiles.jpg", region := 13, category := "Heritage", published := true }, { id := 41, title := "Temple Murals and Kalamkari", slug := "temple-murals-and-kalamkari", content := "Tamil Nadu\x27s Kalamkari connects myth, craft, and devotion.", author := "Kala Editorial", featuredImage := "stories/heritage-textiles.jpg", region := 14, category := "Heritage", published := true }], storyPosts := [{ id := 42, user := 1, content := "Visited the artisans market today. The detailing was incredible.", mentionedProduct := none, mentionedArtisan := none }, { id := 43, user := 2, content := "Just got my handcrafted order. Quality is amazing and delivery was smooth.", mentionedProduct := none, mentionedArtisan := none }, { id := 44, user := 3, content := "New hand-painted collection just dropped this week.", mentionedProduct := none, mentionedArtisan := none }, { id := 45, user := 4, content := "Working on fresh textile patterns inspired by Bengal heritage.", mentionedProduct := none, mentionedArtisan := none }, { id := 46, user := 5, content := "Thank you for the support on our latest craft launch!", mentionedProduct := none, mentionedArtisan := none }], galleryImages := [{ id := 47, title := "Loom in Motion", image := "gallery/loom.jpg", description := "Loom in Motion capturing the craft process.", artisan := some 20, product := none, region := none, featured := true }, { id := 48, title := "Craft Atelier", image := "gallery/atelier.jpg", description := "Craft Atelier capturing the craft process.", artisan := some 22, product := none, region := none, featured := false }, { id := 49, title := "Blue Pottery Detail", image := "gallery/loom.jpg", description := "Blue Pottery Detail capturing the craft process.", artisan := none, product := some 26, region := none, featured := true }, { id := 50, title := "Terracotta Textures", image := "gallery/atelier.jpg", description := "Terracotta Textures capturing the craft process.", artisan := none, product := some 28, region := none, featured := false }, { id := 51, title := "Desert Workshop", image := "gallery/loom.jpg", description := "Desert Workshop capturing the craft process.", artisan := none, product := none, region := some 11, featured := false }], orders := [{ id := 52, user := 1, totalAmount := 439800, status := "delivered", shippingAddress := "Jaipur Heritage Street, 302001" }, { id := 53, user := 2, totalAmount := 279900, status := "processing", shippingAddress := "Ahmedabad Craft Lane, 380001" }], orderItems := [{ id := 54, order := 52, product := 26, quantity := 1, price := 249900 }, { id := 55, order := 52, product := 27, quantity := 1, price := 189900 }, { id := 56, order := 53, product := 31, quantity := 1, price := 279900 }], newsletters := [{ id := 75, email := "neha@kala.local" }, { id := 76, email := "vikram@kala.local" }], favorites := [], emailOtps := [], nextId := 95 }

def secondState0 : State :=
  { users := [{ id := 0, username := "admin", email := "admin@kala.local", password := some "Admin123!", isStaff := true, isSuperuser := true }, { id := 1, username := "neha", email := "neha@kala.local", password := some "Kala123!", isStaff := false, isSuperuser := false }, { id := 2, username := "vikram", email := "vikram@kala.local", password := some "Kala123!", isStaff := false, isSuperuser := false }, { id := 3, username := "sadbhav", email := "sadbhav@kala.local", password := some "Kala123!", isStaff := false, isSuperuser := false }, { id := 4, username := "raaga", email := "raaga@kala.local", password := some "Kala123!", isStaff := false, isSuperuser := false }, { id := 5, username := "sundar", email := "sundar@kala.local", password := some "Kala123!", isStaff := false, isSuperuser := false }], profiles := [{ id := 6, user := 1, userType := "buyer", phone := "+91-9876543210", address := "Jaipur Heritage Street, Craft Block", city := "Jaipur", state := "India", pincode := "302001", profileImage := "profiles/buyer1.jpg", termsVersion := "v1", sellerVerified := false }, { id := 7, user := 2, userType := "buyer", phone := "+91-9898989898", address := "Ahmedabad Heritage Street, Craft Block", city := "Ahmedabad", state := "India", pincode := "302001", profileImage := "profiles/buyer1.jpg", termsVersion := "v1", sellerVerified := false }, { id := 8, user := 3, userType := "seller", phone := "+91-9000000001", address := "Jaipur Heritage Street, Craft Block", city := "Jaipur", state := "India", pincode := "302001", profileImage := "profiles/buyer2.jpg", termsVersion := "v1", sellerVerified := false }, { id := 9, user := 4, userType := "seller", phone := "+91-9000000002", address := "Kolkata Heritage Street, Craft Block", city := "Kolkata", state := "India", pincode := "302001", profileImage := "profiles/buyer2.jpg", termsVersion := "v1", sellerVerified := false }, { id := 10, user := 5, userType := "seller", phone := "+91-9000000003", address := "Chennai Heritage Street, Craft Block", city := "Chennai", state := "India", pincode := "302001", profileImage := "profiles/buyer2.jpg", termsVersion := "v1", sellerVerified := false }], sellers := [{ id := 23, user := 3, shopName := "Sadbhav Crafts", shopDescription := "Curated heritage crafts from Rajasthan.", shopLogo := "shop_logos/sadbhav-crafts.jpg", phone := "+91-9000000000", state := "Rajasthan", bankAccount := "1234567890", bankName := "Kala Bank", ifscCode := "KALA0001234", totalProducts := 2, totalSales := 500000, rating := 460, isVerified := true, isActive := true }, { id := 24, user := 4, shopName := "Raaga Studio", shopDescription := "Textile studio celebrating Bengal artisans.", shopLogo := "shop_logos/raaga-studio.jpg", phone := "+91-9000000000", state := "West Bengal", bankAccount := "1234567890", bankName := "Kala Bank", ifscCode := "KALA0001234", totalProducts := 2, totalSales := 500000, rating := 479, isVerified := true, isActive := true }, { id := 25, user := 5, shopName := "Sundar Collective", shopDescription := "Southern crafts and ritual art pieces.", shopLogo := "shop_logos/sundar-collective.jpg", phone := "+91-9000000000", state := "Tamil Nadu", bankAccount := "1234567890", bankName := "Kala Bank", ifscCode := "KALA0001234", totalProducts := 2, totalSales := 500000, rating := 427, isVerified := true, isActive := true }], sellerProducts := [{ id := 32, seller := 23, product := 26, sellerSku := "BLUE-POTTE-3429", sellerPrice := 249900, sellerStock := 12 }, { id := 33, seller := 23, product := 27, sellerSku := "AJRAKH-COT-5251", sellerPrice := 189900, sellerStock := 25 }, { id := 34, seller := 24, product := 28, sellerSku := "TERRACOTTA-7073", sellerPrice := 159900, sellerStock := 18 }, { id := 35, seller := 25, product := 29, sellerSku := "KALAMKARI--8895", sellerPrice := 319900, sellerStock := 8 }, { id := 36, seller := 25, product := 30, sellerSku := "SILVER-JHU-1717", sellerPrice := 129900, sellerStock := 32 }, { id := 37, seller := 24, product := 31, sellerSku := "KANTHA-THR-3539", sellerPrice := 279900, sellerStock := 14 }], productActivities := [{ id := 57, seller := 23, product := 26, activityType := "click", user := some 2, detailsSource := "seed", detailsRef := "homepage" }, { id := 58, seller := 23, product := 26, activityType := "click", user := some 2, detailsSource := "seed", detailsRef := "homepage" }, { id := 59, seller := 23, product := 26, activityType := "click", user := some 2, detailsSource := "seed", detailsRef := "homepage" }, { id := 60, seller := 23, product := 27, activityType := "click", user := some 2, detailsSource := "seed", detailsRef := "homepage" }, { id := 61, seller := 23, product := 27, activityType := "click", user := some 2, detailsSource := "seed", detailsRef := "homepage" }, { id := 62, seller := 23, product := 27, activityType := "click", user := some 2, detailsSource := "seed", detailsRef := "homepage" }, { id := 63, seller := 24, product := 28, activityType := "click", user := some 2, detailsSource := "seed", detailsRef := "homepage" }, { id := 64, seller := 24, product := 28, activityType := "click", user := some 2, detailsSource := "seed", detailsRef := "homepage" }, { id := 65, seller := 24, product := 28, activityType := "click", user := some 2, detailsSource := "seed", detailsRef := "homepage" }, { id := 66, seller := 25, product := 29, activityType := "click", user := some 2, detailsSource := "seed", detailsRef := "homepage" }, { id := 67, seller := 25, product := 29, activityType := "click", user := some 2, detailsSource := "seed", detailsRef := "homepage" }, { id := 68, seller := 25, product := 29, activityType := "click", user := some 2, detailsSource := "seed", detailsRef := "homepage" }, { id := 69, seller := 25, product := 30, activityType := "click", user := some 2, detailsSource := "seed", detailsRef := "homepage" }, { id := 70, seller := 25, product := 30, activityType := "click", user := some 2, detailsSource := "seed", detailsRef := "homepage" }, { id := 71, seller := 25, product := 30, activityType := "click", user := some 2, detailsSource := "seed", detailsRef := "homepage" }, { id := 72, seller := 24, product := 31, activityType := "click", user := some 2, detailsSource := "seed", detailsRef := "homepage" }, { id := 73, seller := 24, product := 31, activityType := "click", user := some 2, detailsSource := "seed", detailsRef := "homepage" }, { id := 74, seller := 24, product := 31, activityType := "click", user := some 2, detailsSource := "seed", detailsRef := "homepage" }, { id := 77, seller := 23, product := 26, activityType := "view", user := some 1, detailsSource := "seed", detailsRef := "homepage" }, { id := 78, seller := 23, product := 26, activityType := "view", user := some 1, detailsSource := "seed", detailsRef := "homepage" }, { id := 79, seller := 23, product := 26, activityType := "view", user := some 1, detailsSource := "seed", detailsRef := "homepage" }, { id := 80, seller := 23, product := 27, activityType := "view", user := some 1, detailsSource := "seed", detailsRef := "homepage" }, { id := 81, seller := 23, product := 27, activityType := "view", user := some 1, detailsSource := "seed", detailsRef := "homepage" }, { id := 82, seller := 23, product := 27, activityType := "view", user := some 1, detailsSource := "seed", detailsRef := "homepage" }, { id := 83, seller := 24, product := 28, activityType := "view", user := some 1, detailsSource := "seed", detailsRef := "homepage" }, { id := 84, seller := 24, product := 28, activityType := "view", user := some 1, detailsSource := "seed", detailsRef := "homepage" }, { id := 85, seller := 24, product := 28, activityType := "view", user := some 1, detailsSource := "seed", detailsRef := "homepage" }, { id := 86, seller := 25, product := 29, activityType := "view", user := some 1, detailsSource := "seed", detailsRef := "homepage" }, { id := 87, seller := 25, product := 29, activityType := "view", user := some 1, detailsSource := "seed", detailsRef := "homepage" }, { id := 88, seller := 25, product := 29, activityType := "view", user := some 1, detailsSource := "seed", detailsRef := "homepage" }, { id := 89, seller := 25, product := 30, activityType := "view", user := some 1, detailsSource := "seed", detailsRef := "homepage" }, { id := 90, seller := 25, product := 30, activityType := "view", user := some 1, detailsSource := "seed", detailsRef := "homepage" }, { id := 91, seller := 25, product := 30, activityType := "view", user := some 1, detailsSource := "seed", detailsRef := "homepage" }, { id := 92, seller := 24, product := 31, activityType := "view", user := some 1, detailsSource := "seed", detailsRef := "homepage" }, { id := 93, seller := 24, product := 31, activityType := "view", user := some 1, detailsSource := "seed", detailsRef := "homepage" }, { id := 94, seller := 24, product := 31, activityType := "view", user := some 1, detailsSource := "seed", detailsRef := "homepage" }], categories := [{ id := 15, name := "Textiles", slug := "textiles", description := "Handwoven stoles, sarees, and throws.", image := "categories/textiles.jpg" }, { id := 16, name := "Pottery", slug := "pottery", description := "Terracotta and glazed ceramic pieces.", image := "categories/pottery.jpg" }, { id := 17, name := "Jewelry", slug := "jewelry", description := "Silver, beadwork, and folk accessories.", image := "categories/jewelry.jpg" }, { id := 18, name := "Paintings", slug := "paintings", description := "Narrative paintings and wall art.", image := "categories/paintings.jpg" }], regions := [{ id := 11, name := "Rajasthan", slug := "rajasthan", description := "Vibrant desert culture with block printing, blue pottery, and mirror work.", image := "regions/rajasthan.jpg", culturalHeritage := "Rajasthan preserves legacy craft communities and heritage guilds." }, { id := 12, name := "Gujarat", slug := "gujarat", description := "Home to Ajrakh, Patola, and folk embroidery traditions.", image := "regions/gujarat.jpg", culturalHeritage := "Gujarat preserves legacy craft communities and heritage guilds." }, { id := 13, name := "West Bengal", slug := "west-bengal", description := "Known for Kantha, terracotta, and storytelling through textiles.", image := "regions/west-bengal.jpg", culturalHeritage := "West Bengal preserves legacy craft communities and heritage guilds." }, { id := 14, name := "Tamil Nadu", slug := "tamil-nadu", description := "Celebrated for Kalamkari, bronze casting, and temple arts.", image := "regions/tamil-nadu.jpg", culturalHeritage := "Tamil Nadu preserves legacy craft communities and heritage guilds." }], artisans := [{ id := 19, name := "Meera Sharma", slug := "meera-sharma", bio := "Blue pottery artisan specializing in floral glaze work.", image := "artisans/meera-sharma.jpg", region := 11, specialty := "Blue Pottery", yearsOfExperience := 12, email := "meera-sharma@kala.local", phone := "+91-9000011122", website := "https://meera-sharma.example.com", instagram := "https://instagram.com/meera-sharma", featured := true }, { id := 20, name := "Arjun Patel", slug := "arjun-patel", bio := "Ajrakh block printer with a focus on natural dyes.", image := "artisans/arjun-patel.jpg", region := 12, specialty := "Ajrakh Printing", yearsOfExperience := 18, email := "arjun-patel@kala.local", phone := "+91-9000011122", website := "https://arjun-patel.example.com", instagram := "https://instagram.com/arjun-patel", featured := true }, { id := 21, name := "Riya Sen", slug := "riya-sen", bio := "Kantha storyteller bringing heritage motifs to modern throws.", image := "artisans/riya-sen.jpg", region := 13, specialty := "Kantha Embroidery", yearsOfExperience := 10, email := "riya-sen@kala.local", phone := "+91-9000011122", website := "https://riya-sen.example.com", instagram := "https://instagram.com/riya-sen", featured := false }, { id := 22, name := "Karthik Iyer", slug := "karthik-iyer", bio := "Kalamkari painter known for temple-inspired wall art.", image := "artisans/karthik-iyer.jpg", region := 14, specialty := "Kalamkari", yearsOfExperience := 15, email := "karthik-iyer@kala.local", phone := "+91-9000011122", website := "https://karthik-iyer.example.com", instagram := "https://instagram.com/karthik-iyer", featured := false }], products := [{ id := 26, name := "Blue Pottery Vase", slug := "blue-pottery-vase", description := "Hand-painted blue pottery vase with floral patterns.", category := some 16, region := some 11, artisan := some 19, seller := some 23, price := 249900, originalPrice := some 289900, stock := 12, image := "products/blue-pottery-vase.jpg", galleryImages := ["products/blue-pottery-vase.jpg"], featured := true, inStock := true, rating := 443, reviewsCount := 6 }, { id := 27, name := "Ajrakh Cotton Stole", slug := "ajrakh-cotton-stole", description := "Naturally dyed Ajrakh stole with geometric motifs.", category := some 15, region := some 12, artisan := some 20, seller := some 23, price := 189900, originalPrice := some 229900, stock := 25, image := "products/ajrakh-stole.jpg", galleryImages := ["products/ajrakh-stole.jpg"], featured := true, inStock := true, rating := 424, reviewsCount := 14 }, { id := 28, name := "Terracotta Lamp", slug := "terracotta-lamp", description := "Handcrafted terracotta lamp with cutwork design.", category := some 16, region := some 13, artisan := some 21, seller := some 24, price := 159900, originalPrice := some 199900, stock := 18, image := "products/terracotta-lamp.jpg", galleryImages := ["products/terracotta-lamp.jpg"], featured := false, inStock := true, rating := 486, reviewsCount := 22 }, { id := 29, name := "Kalamkari Wall Art", slug := "kalamkari-wall-art", description := "Detailed Kalamkari wall art inspired by temple narratives.", category := some 18, region := some 14, artisan := some 22, seller := some 25, price := 319900, originalPrice := some 359900, stock := 8, image := "products/kalamkari-wall-art.jpg", galleryImages := ["products/kalamkari-wall-art.jpg"], featured := true, inStock := true, rating := 467, reviewsCount := 30 }, { id := 30, name := "Silver Jhumkas", slug := "silver-jhumkas", description := "Hand-finished silver jhumkas with bead detailing.", category := some 17, region := some 12, artisan := some 20, seller := some 25, price := 129900, originalPrice := some 169900, stock := 32, image := "products/silver-jhumkas.jpg", galleryImages := ["products/silver-jhumkas.jpg"], featured := true, inStock := true, rating := 480, reviewsCount := 31 }, { id := 31, name := "Kantha Throw", slug := "kantha-throw", description := "Soft Kantha throw with layered storytelling motifs.", category := some 15, region := some 13, artisan := some 21, seller := some 24, price := 279900, originalPrice := some 319900, stock := 14, image := "products/kantha-throw.jpg", galleryImages := ["products/kantha-throw.jpg"], featured := false, inStock := true, rating := 461, reviewsCount := 39 }], culturalStories := [{ id := 38, title := "Threads of the Desert", slug := "threads-of-the-desert", content := "Rajasthan\x27s textile heritage blends color, mirror work, and nomadic tales.", author := "Kala Editorial", featuredImage := "stories/heritage-textiles.jpg", region := 11, category := "Heritage", published := true }, { id := 39, title := "Ajrakh and the Rhythm of Print", slug := "ajrakh-and-the-rhythm-of-print", content := "Ajrakh printing is a ritual of dye, patience, and geometry.", author := "Kala Editorial", featuredImage := "stories/heritage-textiles.jpg", region := 12, category := "Heritage", published := true }, { id := 40, title := "Kantha: Stories in Stitches", slug := "kantha-stories-in-stitches", content := "Bengal\x27s Kantha reflects memory, daily life, and resilience.", author := "Kala Editorial", featuredImage := "stories/heritage-textiles.jpg", region := 13, category := "Heritage", published := true }, { id := 41, title := "Temple Murals and Kalamkari", slug := "temple-murals-and-kalamkari", content := "Tamil Nadu\x27s Kalamkari connects myth, craft, and devotion.", author := "Kala Editorial", featuredImage := "stories/heritage-textiles.jpg", region := 14, category := "Heritage", published := true }], storyPosts := [{ id := 42, user := 1, content := "Visited the artisans market today. The detailing was incredible.", mentionedProduct := none, mentionedArtisan := none }, { id := 43, user := 2, content := "Just got my handcrafted order. Quality is amazing and delivery was smooth.", mentionedProduct := none, mentionedArtisan := none }, { id := 44, user := 3, content := "New hand-painted collection just dropped this week.", mentionedProduct := none, mentionedArtisan := none }, { id := 45, user := 4, content := "Working on fresh textile patterns inspired by Bengal heritage.", mentionedProduct := none, mentionedArtisan := none }, { id := 46, user := 5, content := "Thank you for the support on our latest craft launch!", mentionedProduct := none, mentionedArtisan := none }], galleryImages := [{ id := 47, title := "Loom in Motion", image := "gallery/loom.jpg", description := "Loom in Motion capturing the craft process.", artisan := some 20, product := none, region := none, featured := true }, { id := 48, title := "Craft Atelier", image := "gallery/atelier.jpg", description := "Craft Atelier capturing the craft process.", artisan := some 22, product := none, region := none, featured := false }, { id := 49, title := "Blue Pottery Detail", image := "gallery/loom.jpg", description := "Blue Pottery Detail capturing the craft process.", artisan := none, product := some 26, region := none, featured := true }, { id := 50, title := "Terracotta Textures", image := "gallery/atelier.jpg", description := "Terracotta Textures capturing the craft process.", artisan := none, product := some 28, region := none, featured := false }, { id := 51, title := "Desert Workshop", image := "gallery/loom.jpg", description := "Desert Workshop capturing the craft process.", artisan := none, product := none, region := some 11, featured := false }], orders := [{ id := 52, user := 1, totalAmount := 439800, status := "delivered", shippingAddress := "Jaipur Heritage Street, 302001" }, { id := 53, user := 2, totalAmount := 279900, status := "processing", shippingAddress := "Ahmedabad Craft Lane, 380001" }], orderItems := [{ id := 54, order := 52, product := 26, quantity := 1, price := 249900 }, { id := 55, order := 52, product := 27, quantity := 1, price := 189900 }, { id := 56, order := 53, product := 31, quantity := 1, price := 279900 }], newsletters := [{ id := 75, email := "neha@kala.local" }, { id := 76, email := "vikram@kala.local" }], favorites := [], emailOtps := [], nextId := 95 }

set_option maxRecDepth 1000000 in
theorem firstRun_state_lit : firstRun.state = firstState := by decide

set_option maxRecDepth 1000000 in
theorem firstRun_fs_lit : firstRun.fs = allImagePaths := by decide

set_option maxRecDepth 1000000 in
theorem secondRun1_lit :
    (runCommand false firstState allImagePaths (cstream 1)).state = secondState1 := by
  decide

set_option maxRecDepth 1000000 in
theorem secondRun0_lit :
    (runCommand false firstState allImagePaths (cstream 0)).state = secondState0 := by
  decide

set_option maxRecDepth 1000000 in
theorem secondRun1_ok :
    (runCommand false firstState allImagePaths (cstream 1)).ok = true := by decide

set_option maxRecDepth 1000000 in
theorem secondRun0_ok :
    (runCommand false firstState allImagePaths (cstream 0)).ok = true := by decide

/-- A second seed run over the database and media directory produced by
`firstRun`, with the same interpreter RNG state. -/
def secondRun : CmdOut := runCommand false firstRun.state firstRun.fs (cstream 0)

set_option maxRecDepth 1000000 in
/-- C1 (counterexample).  Running the seed command a second time (without
--reset) on the database populated by a first run does not leave the
database unchanged: _create_product_activity unconditionally inserts three
rows per product, growing the activity table from 18 to 36 rows, and the
per-seller counter update overwrites every Seller row. -/
theorem seed_not_idempotent :
    firstRun.ok = true ∧ secondRun.ok = true ∧
    firstRun.state.productActivities.length = 18 ∧
    secondRun.state.productActivities.length = 36 ∧
    secondRun.state.sellers ≠ firstRun.state.sellers := by
  have e2 : secondRun.state = secondState0 := by
    show (runCommand false firstRun.state firstRun.fs (cstream 0)).state =
      secondState0
    rw [firstRun_state_lit, firstRun_fs_lit]
    exact secondRun0_lit
  have hok2 : secondRun.ok = true := by
    show (runCommand false firstRun.state firstRun.fs (cstream 0)).ok = true
    rw [firstRun_state_lit, firstRun_fs_lit]
    exact secondRun0_ok
  refine ⟨by decide, hok2, ?_, ?_, ?_⟩
  · rw [firstRun_state_lit]
    decide
  · rw [e2]
    decide
  · rw [e2, firstRun_state_lit]
    decide

set_option maxRecDepth 1000000 in
/-- C1 (amended).  A second run without --reset is an upsert for every table
except two spots: ProductActivity and OrderItem rows are only ever appended
and Favorites stay untouched (for every interpreter RNG state), and a second
run leaves users, profiles, regions, categories, artisans, products, seller
products, stories, story posts, gallery images, orders, order items,
newsletters and email OTPs bit-for-bit unchanged while rewriting each Seller
row only in its total_sales counter and appending exactly 18 new activity
rows. -/
theorem seed_second_run_upsert :
    (∀ rng2 : RandState, ∃ t,
      (runCommand false firstRun.state firstRun.fs rng2).state.productActivities =
        firstRun.state.productActivities ++ t) ∧
    (∀ rng2 : RandState, ∃ t,
      (runCommand false firstRun.state firstRun.fs rng2).state.orderItems =
        firstRun.state.orderItems ++ t) ∧
    (∀ rng2 : RandState,
      (runCommand false firstRun.state firstRun.fs rng2).state.favorites =
        firstRun.state.favorites) ∧
    (runCommand false firstRun.state firstRun.fs (cstream 1)).ok = true ∧
    ((runCommand false firstRun.state firstRun.fs (cstream 1)).state.users =
        firstRun.state.users ∧
      (runCommand false firstRun.state firstRun.fs (cstream 1)).state.profiles =
        firstRun.state.profiles ∧
      (runCommand false firstRun.state firstRun.fs (cstream 1)).state.regions =
        firstRun.state.regions ∧
      (runCommand false firstRun.state firstRun.fs (cstream 1)).state.categories =
        firstRun.state.categories ∧
      (runCommand false firstRun.state firstRun.fs (cstream 1)).state.artisans =
        firstRun.state.artisans ∧
      (runCommand false firstRun.state firstRun.fs (cstream 1)).state.products =
        firstRun.state.products ∧
      (runCommand false firstRun.state firstRun.fs (cstream 1)).state.sellerProducts =
        firstRun.state.sellerProducts ∧
      (runCommand false firstRun.state firstRun.fs (cstream 1)).state.culturalStories =
        firstRun.state.culturalStories ∧
      (runCommand false firstRun.state firstRun.fs (cstream 1)).state.storyPosts =
        firstRun.state.storyPosts ∧
      (runCommand false firstRun.state firstRun.fs (cstream 1)).state.galleryImages =
        firstRun.state.galleryImages ∧
      (runCommand false firstRun.state firstRun.fs (cstream 1)).state.orders =
        firstRun.state.orders ∧
      (runCommand false firstRun.state firstRun.fs (cstream 1)).state.orderItems =
        firstRun.state.orderItems ∧
      (runCommand false firstRun.state firstRun.fs (cstream 1)).state.newsletters =
        firstRun.state.newsletters ∧
      (runCommand false firstRun.state firstRun.fs (cstream 1)).state.emailOtps =
        firstRun.state.emailOtps) ∧
    (runCommand false firstRun.state firstRun.fs (cstream 1)).state.sellers.map
        (fun s => { s with totalSales := 0 }) =
      firstRun.state.sellers.map (fun s => { s with totalSales := 0 }) ∧
    (runCommand false firstRun.state firstRun.fs (cstream 1)).state.productActivities.take 18 =
      firstRun.state.productActivities ∧
    (runCommand false firstRun.state firstRun.fs (cstream 1)).state.productActivities.length =
      36 := by
  have e1 : (runCommand false firstRun.state firstRun.fs (cstream 1)).state =
      secondState1 := by
    rw [firstRun_state_lit, firstRun_fs_lit]
    exact secondRun1_lit
  have hok : (runCommand false firstRun.state firstRun.fs (cstream 1)).ok =
      true := by
    rw [firstRun_state_lit, firstRun_fs_lit]
    exact secondRun1_ok
  refine ⟨?_, ?_, ?_, hok, ?_, ?_, ?_, ?_⟩
  · intro rng2
    cases hb : seedBody false firstRun.state firstRun.fs rng2 with
    | error e =>
      rw [runCommand_eq_err _ _ _ _ _ hb]
      exact ⟨[], by simp⟩
    | ok out =>
      rw [runCommand_eq_ok _ _ _ _ _ hb]
      exact seedBody_ok_activities false firstRun.state firstRun.fs rng2 out hb
  · intro rng2
    cases hb : seedBody false firstRun.state firstRun.fs rng2 with
    | error e =>
      rw [runCommand_eq_err _ _ _ _ _ hb]
      exact ⟨[], by simp⟩
    | ok out =>
      rw [runCommand_eq_ok _ _ _ _ _ hb]
      exact seedBody_ok_orderItems false firstRun.state firstRun.fs rng2 out hb
  · intro rng2
    cases hb : seedBody false firstRun.state firstRun.fs rng2 with
    | error e =>
      rw [runCommand_eq_err _ _ _ _ _ hb]
    | ok out =>
      rw [runCommand_eq_ok _ _ _ _ _ hb]
      exact seedBody_ok_favorites false firstRun.state firstRun.fs rng2 out hb
  · rw [e1, firstRun_state_lit]
    refine ⟨by decide, by decide, by decide, by decide, by decide, by decide,
      by decide, by decide, by decide, by decide, by decide, by decide,
      by decide, by decide⟩
  · rw [e1, firstRun_state_lit]
    decide
  · rw [e1, firstRun_state_lit]
    decide
  · rw [e1]
    decide

end Kala
